import Mathlib

/-!
Verification of the cosmos-navigator computational core against its design
specification.

The development shallowly embeds the relevant source modules:

* `src/src/systems/TimeController.ts` — simulated-time state, Julian-date and
  calendar conversions.  JavaScript numbers are modelled as exact rationals
  (`ℚ`); `Math.floor` becomes `Int.floor`; a thrown `InvariantError` becomes
  `Except.error`.  For the calendar round-trip, where double-precision
  rounding is behaviourally visible, the conversions are additionally
  embedded a second time with every arithmetic operation rounded to IEEE-754
  binary64 (`rnd` below), so that statements about the floating-point
  behaviour of the program can be made exactly.
* `src/unnamed/part_002` (`OrbitalMechanics.ts`) — Kepler solver and orbit
  evaluation, modelled over `ℝ` with `Real.sin`/`Real.cos`/`Real.tan`/
  `Real.arctan`/`Real.sqrt`.
* `src/src/bodies/CelestialBody.ts` and the `SolarSystemBuilder` update pass —
  the body hierarchy, modelled as a list of bodies updated in order, with a
  parent referenced by its index in the list (parents precede children in the
  assembled system).

The assertion helpers of `src/utils/invariant.ts` (`invariant`,
`assertFinite`, `assertNonNegative`, `assertBounds`, `assertPositive`,
`postcondition`) throw on violation; each check whose condition is expressible
in the embedding becomes an explicit `if`-guard returning `Except.error`.
Finiteness checks (`assertFinite`, and the NaN checks) are vacuous over
`ℚ`/`ℝ`, where every value is finite, and are therefore omitted.
-/

set_option maxHeartbeats 1000000
set_option maxRecDepth 4000

namespace Cosmos

/-! ## Calendar dates

A `CalDate` models the six UTC fields that `TimeController.dateToJulian`
reads from a JavaScript `Date` object (`getUTCFullYear`, `getUTCMonth() + 1`,
`getUTCDate`, `getUTCHours`, `getUTCMinutes`, `getUTCSeconds`). -/

structure CalDate where
  year : ℤ
  month : ℤ
  day : ℤ
  hour : ℤ
  minute : ℤ
  second : ℤ
deriving DecidableEq, Repr

/-- Day count of a month in the proleptic Gregorian calendar. -/
def daysInMonth (y m : ℤ) : ℤ :=
  if m = 2 then (if y % 4 = 0 ∧ (y % 100 ≠ 0 ∨ y % 400 = 0) then 29 else 28)
  else if m = 4 ∨ m = 6 ∨ m = 9 ∨ m = 11 then 30 else 31

/-- A `CalDate` whose fields are those of an actual (non-`NaN`) JavaScript
`Date`: calendar-valid fields, with the year inside the range representable
by a JavaScript `Date` time value (±8.64e15 ms, roughly years −271821 to
275760). -/
def CalDate.Valid (d : CalDate) : Prop :=
  (-271821 ≤ d.year ∧ d.year ≤ 275760) ∧
  (1 ≤ d.month ∧ d.month ≤ 12) ∧
  (1 ≤ d.day ∧ d.day ≤ daysInMonth d.year d.month) ∧
  (0 ≤ d.hour ∧ d.hour ≤ 23) ∧
  (0 ≤ d.minute ∧ d.minute ≤ 59) ∧
  (0 ≤ d.second ∧ d.second ≤ 59)

instance (d : CalDate) : Decidable d.Valid := by
  unfold CalDate.Valid
  infer_instance

namespace TimeController

/-- Julian Date for the J2000.0 epoch (`J2000_JD` in `TimeController.ts`). -/
def J2000_JD : ℚ := 2451545.0

/-- Maximum allowed time scale (`MAX_TIME_SCALE`). -/
def MAX_TIME_SCALE : ℚ := 10000000

/-- Minimum Julian date (`MIN_JULIAN_DATE`). -/
def MIN_JULIAN_DATE : ℚ := 0

/-- Maximum reasonable Julian date (`MAX_JULIAN_DATE`). -/
def MAX_JULIAN_DATE : ℚ := 20000000

/-- Embedding of `TimeController.dateToJulian` (Meeus algorithm).  The
`invariant(date instanceof Date && !isNaN(...))` precondition is represented
by the `CalDate` type itself; the arithmetic is exactly the source lines. -/
def dateToJulian (d : CalDate) : ℚ :=
  let y : ℤ := if d.month ≤ 2 then d.year - 1 else d.year
  let m : ℤ := if d.month ≤ 2 then d.month + 12 else d.month
  let A : ℤ := ⌊(y : ℚ) / 100⌋
  let B : ℤ := 2 - A + ⌊(A : ℚ) / 4⌋
  ((⌊(365.25 : ℚ) * ((y : ℚ) + 4716)⌋ : ℤ) : ℚ) +
    ((⌊(30.6001 : ℚ) * ((m : ℚ) + 1)⌋ : ℤ) : ℚ) +
    (d.day : ℚ) + (B : ℚ) - 1524.5 +
    ((d.hour : ℚ) + (d.minute : ℚ) / 60 + (d.second : ℚ) / 3600) / 24

/-- Embedding of `TimeController.julianToDate`.  The leading `invariant` on
the Julian-date range becomes the guard; the final
`new Date(Date.UTC(year, month - 1, day, hour, minute, second))` is modelled
by returning the computed fields (for field values in calendar range the
`Date.UTC` construction is the identity on the fields). -/
def julianToDate (jd : ℚ) : Except String CalDate :=
  if MIN_JULIAN_DATE < jd ∧ jd < MAX_JULIAN_DATE then
    let Z : ℤ := ⌊jd + 0.5⌋
    let F : ℚ := jd + 0.5 - (Z : ℚ)
    let A : ℤ :=
      if Z < 2299161 then Z
      else
        (let alpha : ℤ := ⌊((Z : ℚ) - 1867216.25) / 36524.25⌋
         Z + 1 + alpha - ⌊(alpha : ℚ) / 4⌋)
    let B : ℤ := A + 1524
    let C : ℤ := ⌊((B : ℚ) - 122.1) / 365.25⌋
    let D : ℤ := ⌊(365.25 : ℚ) * (C : ℚ)⌋
    let E : ℤ := ⌊((B : ℚ) - (D : ℚ)) / 30.6001⌋
    let day : ℤ := B - D - ⌊(30.6001 : ℚ) * (E : ℚ)⌋
    let month : ℤ := if E < 14 then E - 1 else E - 13
    let year : ℤ := if month > 2 then C - 4716 else C - 4715
    let fracDay : ℚ := F * 24
    let hour : ℤ := ⌊fracDay⌋
    let fracHour : ℚ := (fracDay - (hour : ℚ)) * 60
    let minute : ℤ := ⌊fracHour⌋
    let second : ℤ := ⌊(fracHour - (minute : ℚ)) * 60⌋
    .ok ⟨year, month, day, hour, minute, second⟩
  else .error "Julian date must be in valid range for conversion"

/-- Mutable state of a `TimeController` instance: the private fields
`julianDate`, `timeScale`, `isPaused` and `accumulatedTime`. -/
structure State where
  julianDate : ℚ
  timeScale : ℚ
  isPaused : Bool
  accumulatedTime : ℚ
deriving DecidableEq, Repr

/-- Embedding of `TimeController.update`.  When paused it returns at once;
otherwise `assertNonNegative(deltaSeconds)` throws on a negative argument
(the state is not yet mutated at that point), the date and accumulator are
advanced, and the range invariants are re-checked. -/
def update (deltaSeconds : ℚ) (s : State) : Except String State :=
  if s.isPaused then .ok s
  else if deltaSeconds < 0 then .error "Delta seconds must be non-negative"
  else
    let deltaDays : ℚ := deltaSeconds * s.timeScale / 86400
    let jd : ℚ := s.julianDate + deltaDays
    let acc : ℚ := s.accumulatedTime + deltaSeconds * 1000
    if MIN_JULIAN_DATE < jd ∧ jd < MAX_JULIAN_DATE then
      if acc < 0 then .error "Accumulated time must be non-negative"
      else .ok { s with julianDate := jd, accumulatedTime := acc }
    else .error "Julian date must remain in valid range after update"

/-- Embedding of `TimeController.setTimeScale`:
`assertBounds(Math.abs(scale), 0, MAX_TIME_SCALE)`. -/
def setTimeScale (scale : ℚ) (s : State) : Except String State :=
  if |scale| ≤ MAX_TIME_SCALE then .ok { s with timeScale := scale }
  else .error "Absolute time scale must be between 0 and 10000000"

/-- Embedding of `TimeController.pause`. -/
def pause (s : State) : State := { s with isPaused := true }

/-- Embedding of `TimeController.resume`. -/
def resume (s : State) : State := { s with isPaused := false }

/-- Embedding of `TimeController.togglePause`. -/
def togglePause (s : State) : State := { s with isPaused := !s.isPaused }

/-- Embedding of `TimeController.reverse` (`timeScale = -Math.abs(timeScale)`). -/
def reverse (s : State) : State := { s with timeScale := -|s.timeScale| }

/-- Embedding of `TimeController.forward` (`timeScale = Math.abs(timeScale)`). -/
def forward (s : State) : State := { s with timeScale := |s.timeScale| }

/-- Embedding of `TimeController.setDate`.  The source only checks
`date instanceof Date && !isNaN(date.getTime())` (modelled by
`CalDate.Valid`) and then stores `dateToJulian(date)` without any range
check on the resulting Julian date. -/
def setDate (d : CalDate) (s : State) : Except String State :=
  if d.Valid then .ok { s with julianDate := dateToJulian d }
  else .error "setDate requires valid Date object"

/-- Embedding of `TimeController.setJulianDate`, with its range invariant. -/
def setJulianDate (jd : ℚ) (s : State) : Except String State :=
  if MIN_JULIAN_DATE < jd ∧ jd < MAX_JULIAN_DATE then .ok { s with julianDate := jd }
  else .error "Julian date must be in valid range"

/-- Embedding of `TimeController.jumpToJ2000`. -/
def jumpToJ2000 (s : State) : State := { s with julianDate := J2000_JD }

/-- Embedding of `TimeController.addDays`, with its range invariant checked
before the assignment. -/
def addDays (days : ℚ) (s : State) : Except String State :=
  let newJd : ℚ := s.julianDate + days
  if MIN_JULIAN_DATE < newJd ∧ newJd < MAX_JULIAN_DATE then .ok { s with julianDate := newJd }
  else .error "Julian date must remain in valid range after adding days"

/-- The public operations of `TimeController` other than `setDate` and the
wall-clock-dependent `jumpToNow`, packaged for a uniform statement of the
day-count invariant. -/
inductive Op where
  | update (deltaSeconds : ℚ)
  | setTimeScale (scale : ℚ)
  | pause
  | resume
  | togglePause
  | reverse
  | forward
  | setJulianDate (jd : ℚ)
  | addDays (days : ℚ)
  | jumpToJ2000
deriving DecidableEq, Repr

/-- Run one public operation on a state. -/
def applyOp : Op → State → Except String State
  | .update δ, s => update δ s
  | .setTimeScale σ, s => setTimeScale σ s
  | .pause, s => .ok (pause s)
  | .resume, s => .ok (resume s)
  | .togglePause, s => .ok (togglePause s)
  | .reverse, s => .ok (reverse s)
  | .forward, s => .ok (forward s)
  | .setJulianDate jd, s => setJulianDate jd s
  | .addDays days, s => addDays days s
  | .jumpToJ2000, s => .ok (jumpToJ2000 s)

/-! ### Integer mirror of the calendar arithmetic

Every `Math.floor` in `dateToJulian`/`julianToDate` is a floor of an integer
divided by a positive integer constant, so the whole date part can be
mirrored in pure `ℤ` arithmetic (`Int./` is Euclidean division, which agrees
with the floor for positive divisors).  The mirror is proof infrastructure;
the definitions above are the embedding. -/

/-- Integer value of `JD + 0.5` for a date at midnight: the date part of
`dateToJulian` (everything except the `- 1524.5` fraction and time of day),
shifted so that `dateToJulian d = dayNumberI y m day - 1/2 + timeOfDay`. -/
def dayNumberI (year month day : ℤ) : ℤ :=
  let y : ℤ := if month ≤ 2 then year - 1 else year
  let m : ℤ := if month ≤ 2 then month + 12 else month
  1461 * (y + 4716) / 4 + 306001 * (m + 1) / 10000 + day + (2 - y / 100 + y / 100 / 4) - 1524

/-- Mirror of the `A` computed by `julianToDate` (Gregorian correction). -/
def jdA (Z : ℤ) : ℤ :=
  if Z < 2299161 then Z
  else Z + 1 + (4 * Z - 7468865) / 146097 - (4 * Z - 7468865) / 146097 / 4

/-- Mirror of the `B` computed by `julianToDate`. -/
def jdB (Z : ℤ) : ℤ := jdA Z + 1524

/-- Mirror of the `C` computed by `julianToDate`. -/
def jdC (Z : ℤ) : ℤ := (20 * jdB Z - 2442) / 7305

/-- Mirror of the `D` computed by `julianToDate`. -/
def jdD (Z : ℤ) : ℤ := 1461 * jdC Z / 4

/-- Mirror of the `E` computed by `julianToDate`. -/
def jdE (Z : ℤ) : ℤ := 10000 * (jdB Z - jdD Z) / 306001

/-- Mirror of the `day` computed by `julianToDate`. -/
def jdDay (Z : ℤ) : ℤ := jdB Z - jdD Z - 306001 * jdE Z / 10000

/-- Mirror of the `month` computed by `julianToDate`. -/
def jdMonth (Z : ℤ) : ℤ := if jdE Z < 14 then jdE Z - 1 else jdE Z - 13

/-- Mirror of the `year` computed by `julianToDate`. -/
def jdYear (Z : ℤ) : ℤ := if jdMonth Z > 2 then jdC Z - 4716 else jdC Z - 4715

/-! ### Double-precision model of the calendar conversions

The exact-rational embeddings `dateToJulian`/`julianToDate` above model the
source's real-number algorithm.  The JavaScript program, however, computes
with IEEE-754 binary64 ("double") numbers, and for these two functions the
rounding is behaviourally visible: the time-of-day fraction of a Julian date
near 2.45·10⁶ lives on a 2⁻³¹ grid (~4·10⁻⁵ s), and `julianToDate` extracts
the seconds with a bare `Math.floor`.  To state that behaviour exactly, the
same source lines are embedded a second time with every JavaScript
arithmetic operation (and every decimal literal) rounded by `rnd`, which
rounds a rational to the nearest binary64 value (round to nearest, ties to
even, 53-bit significand).  Exponent overflow and subnormals are not
modelled: every value arising in these conversions is a normal double, so on
them `rnd` is exactly JavaScript's rounding.  Comparisons and `Math.floor`
are exact on doubles and introduce no rounding of their own. -/

/-- Floor of a rational, as integer division of the numerator by the
(positive) denominator; `Int` division is Euclidean, so this is `⌊q⌋`. -/
def qfloor (q : ℚ) : ℤ := q.num / (q.den : ℤ)

/-- Round a rational to the nearest integer, ties to even (the tie-breaking
rule of IEEE-754 arithmetic). -/
def rne (q : ℚ) : ℤ :=
  let f := qfloor q
  let r := q - (f : ℚ)
  if r < 1/2 then f
  else if 1/2 < r then f + 1
  else if f % 2 = 0 then f else f + 1

/-- Largest `e` with `2 ^ e ≤ q`, for a positive rational `q`: estimated
from the bit lengths of numerator and denominator, then corrected by direct
comparison (the estimate `e0` is within one of the true value). -/
def floorLog2 (q : ℚ) : ℤ :=
  let e0 : ℤ := (Nat.log2 q.num.natAbs : ℤ) - (Nat.log2 q.den : ℤ) - 1
  if (2:ℚ) ^ (e0 + 2) ≤ q then e0 + 2 else if (2:ℚ) ^ (e0 + 1) ≤ q then e0 + 1 else e0

/-- Round a positive rational to 53 significant bits: scale into
`[2^52, 2^53)`, round to the nearest integer (ties to even), scale back. -/
def rndPos (q : ℚ) : ℚ :=
  let e := floorLog2 q - 52
  (rne (q * (2:ℚ) ^ (-e)) : ℚ) * (2:ℚ) ^ e

/-- Round a rational to the nearest IEEE-754 binary64 value (round to
nearest, ties to even), for values in the normal range. -/
def rnd (q : ℚ) : ℚ :=
  if q = 0 then 0 else if q < 0 then -rndPos (-q) else rndPos q

/-- Model of `Math.floor` on a double: exact, and its result is again a
double. -/
def floorF (q : ℚ) : ℚ := ((qfloor q : ℤ) : ℚ)

/-- Embedding of `dateToJulian` in double precision: the same source lines
as `dateToJulian` above, with every arithmetic operation rounded to binary64
by `rnd`.  The decimal literals `365.25`, `30.6001`, `1524.5` are themselves
doubles, hence also wrapped in `rnd` (`30.6001` is not exactly
representable); the comparisons `m <= 2` are exact. -/
def dateToJulianF (d : CalDate) : ℚ :=
  let year : ℚ := (d.year : ℚ)
  let month : ℚ := (d.month : ℚ)
  let y : ℚ := if month ≤ 2 then rnd (year - 1) else year
  let m : ℚ := if month ≤ 2 then rnd (month + 12) else month
  let A : ℚ := floorF (rnd (y / 100))
  let B : ℚ := rnd (rnd (2 - A) + floorF (rnd (A / 4)))
  let dayFrac : ℚ :=
    rnd (rnd (rnd ((d.hour : ℚ) + rnd ((d.minute : ℚ) / 60)) +
      rnd ((d.second : ℚ) / 3600)) / 24)
  rnd (rnd (rnd (rnd (rnd (floorF (rnd (rnd (365.25 : ℚ) * rnd (y + 4716))) +
    floorF (rnd (rnd (30.6001 : ℚ) * rnd (m + 1)))) + (d.day : ℚ)) + B) -
    rnd (1524.5 : ℚ)) + dayFrac)

/-- Embedding of `julianToDate` in double precision: the same source lines
as `julianToDate` above, with every arithmetic operation rounded to binary64
by `rnd`.  The source computes `jd + 0.5` twice (for `Z` and for `F`); both
occurrences are the same double, modelled once as `jdh`. -/
def julianToDateF (jd : ℚ) : Except String CalDate :=
  if MIN_JULIAN_DATE < jd ∧ jd < MAX_JULIAN_DATE then
    let jdh : ℚ := rnd (jd + rnd (0.5 : ℚ))
    let Z : ℚ := floorF jdh
    let F : ℚ := rnd (jdh - Z)
    let A : ℚ :=
      if Z < 2299161 then Z
      else
        (let alpha : ℚ := floorF (rnd (rnd (Z - rnd (1867216.25 : ℚ)) / rnd (36524.25 : ℚ)))
         rnd (rnd (rnd (Z + 1) + alpha) - floorF (rnd (alpha / 4))))
    let B : ℚ := rnd (A + 1524)
    let C : ℚ := floorF (rnd (rnd (B - rnd (122.1 : ℚ)) / rnd (365.25 : ℚ)))
    let D : ℚ := floorF (rnd (rnd (365.25 : ℚ) * C))
    let E : ℚ := floorF (rnd (rnd (B - D) / rnd (30.6001 : ℚ)))
    let day : ℚ := rnd (rnd (B - D) - floorF (rnd (rnd (30.6001 : ℚ) * E)))
    let month : ℚ := if E < 14 then rnd (E - 1) else rnd (E - 13)
    let year : ℚ := if month > 2 then rnd (C - 4716) else rnd (C - 4715)
    let fracDay : ℚ := rnd (F * 24)
    let hour : ℚ := floorF fracDay
    let fracHour : ℚ := rnd (rnd (fracDay - hour) * 60)
    let minute : ℚ := floorF fracHour
    let second : ℚ := floorF (rnd (rnd (fracHour - minute) * 60))
    .ok ⟨qfloor year, qfloor month, qfloor day, qfloor hour, qfloor minute, qfloor second⟩
  else .error "Julian date must be in valid range for conversion"

end TimeController

/-! ## Orbital mechanics (`src/unnamed/part_002`, `OrbitalMechanics.ts`)

JavaScript numbers become real numbers; `Math.sin`, `Math.cos`, `Math.tan`,
`Math.atan`, `Math.sqrt` and `Math.PI` become their `Real` counterparts; a
thrown `InvariantError` becomes `Except.error`.  `Number.EPSILON` is
`2⁻⁵²`. -/

namespace OrbitalMechanics

/-- Julian Date for the J2000.0 epoch (`J2000_JD` in `OrbitalMechanics.ts`). -/
noncomputable def J2000_JD : ℝ := 2451545.0

/-- Maximum iterations for the Kepler equation solver. -/
def MAX_KEPLER_ITERATIONS : ℕ := 100

/-- Tolerance for Kepler equation convergence. -/
noncomputable def KEPLER_TOLERANCE : ℝ := 1e-10

/-- Maximum reasonable semi-major axis (AU). -/
noncomputable def MAX_SEMI_MAJOR_AXIS : ℝ := 100000

/-- Minimum reasonable semi-major axis (AU). -/
noncomputable def MIN_SEMI_MAJOR_AXIS : ℝ := 0.00001

/-- The JavaScript constant `Number.EPSILON` = 2⁻⁵². -/
noncomputable def numberEpsilon : ℝ := 1 / 2 ^ (52 : ℕ)

/-- The `OrbitalElements` interface.  `meanMotion` and `epoch` are the two
optional fields. -/
structure OrbitalElements where
  semiMajorAxis : ℝ
  eccentricity : ℝ
  inclination : ℝ
  longitudeOfAscendingNode : ℝ
  argumentOfPerihelion : ℝ
  meanAnomaly : ℝ
  meanMotion : Option ℝ
  epoch : Option ℝ

/-- The `CartesianPosition` interface (AU coordinates). -/
structure CartesianPosition where
  x : ℝ
  y : ℝ
  z : ℝ

/-- The Newton–Raphson loop of `solveKeplerEquation`, with the remaining
iteration count as fuel.  Exhausted fuel is the `invariant(converged, ...)`
failure after the `for` loop; the denominator guard is the in-loop
`invariant(Math.abs(denominator) > Number.EPSILON, ...)`.  On convergence
(`Math.abs(dE) < tolerance` checked after `E -= dE`) the updated `E` is
returned. -/
noncomputable def keplerLoop (M e tol : ℝ) : ℕ → ℝ → Except String ℝ
  | 0, _ => .error "Kepler equation must converge"
  | n + 1, E =>
      if ¬ (|1 - e * Real.cos E| > numberEpsilon) then
        .error "Kepler equation denominator must not be zero"
      else
        let dE := (E - e * Real.sin E - M) / (1 - e * Real.cos E)
        if |dE| < tol then .ok (E - dE)
        else keplerLoop M e tol n (E - dE)

/-- Embedding of `solveKeplerEquation`.  The preconditions
`assertBounds(eccentricity, 0, 1 - Number.EPSILON)`,
`assertPositive(tolerance)` and `assertPositive(maxIterations)` throw when
violated; the finiteness assertions are vacuous over `ℝ`.  The seed is `M`
in radians, or `π` when `e > 0.8`. -/
noncomputable def solveKeplerEquation (meanAnomaly eccentricity : ℝ)
    (tolerance : ℝ := KEPLER_TOLERANCE) (maxIterations : ℕ := MAX_KEPLER_ITERATIONS) :
    Except String ℝ :=
  if ¬ (0 ≤ eccentricity ∧ eccentricity ≤ 1 - numberEpsilon) then
    .error "Eccentricity must be between 0 and 1 - Number.EPSILON"
  else if ¬ (0 < tolerance) then .error "Kepler tolerance must be positive"
  else if maxIterations = 0 then .error "Max Kepler iterations must be positive"
  else
    let M := meanAnomaly * (Real.pi / 180)
    let E0 := if eccentricity > 0.8 then Real.pi else M
    keplerLoop M eccentricity tolerance maxIterations E0

/-- Embedding of `trueAnomalyFromEccentric`. -/
noncomputable def trueAnomalyFromEccentric (eccentricAnomaly eccentricity : ℝ) :
    Except String ℝ :=
  if ¬ (0 ≤ eccentricity ∧ eccentricity ≤ 1 - numberEpsilon) then
    .error "Eccentricity for true anomaly must be between 0 and 1 - Number.EPSILON"
  else if ¬ (0 < 1 - eccentricity) then
    .error "Denominator (1-e) must be positive"
  else
    .ok (2 * Real.arctan (Real.sqrt ((1 + eccentricity) / (1 - eccentricity)) *
      Real.tan (eccentricAnomaly / 2)))

/-- Embedding of `calculateHeliocentricDistance`, including the positive
denominator invariant and the positive-result postcondition. -/
noncomputable def calculateHeliocentricDistance (semiMajorAxis eccentricity trueAnomaly : ℝ) :
    Except String ℝ :=
  if ¬ (0 < semiMajorAxis) then .error "Semi-major axis for distance must be positive"
  else if ¬ (0 ≤ eccentricity ∧ eccentricity ≤ 1 - numberEpsilon) then
    .error "Eccentricity for distance must be between 0 and 1 - Number.EPSILON"
  else
    let denominator := 1 + eccentricity * Real.cos trueAnomaly
    if ¬ (0 < denominator) then .error "Heliocentric distance denominator must be positive"
    else
      let r := semiMajorAxis * (1 - eccentricity * eccentricity) / denominator
      if ¬ (0 < r) then .error "Heliocentric distance must be positive"
      else .ok r

/-- JavaScript truncation toward zero, as used implicitly by the `%`
operator. -/
noncomputable def jsTrunc (x : ℝ) : ℤ := if 0 ≤ x then ⌊x⌋ else ⌈x⌉

/-- The JavaScript remainder operator `a % b`: the remainder of truncating
division, with the sign of the dividend. -/
noncomputable def jsMod (a b : ℝ) : ℝ := a - b * (jsTrunc (a / b) : ℝ)

/-- The mean motion used by `calculatePosition`:
`elements.meanMotion || (360 / (Math.sqrt(a*a*a) * 365.25))`.  The
JavaScript `||` falls back to the derived value when `meanMotion` is absent
or equal to `0` (zero is falsy). -/
noncomputable def meanMotionUsed (elements : OrbitalElements) : ℝ :=
  let derived : ℝ :=
    360 / (Real.sqrt (elements.semiMajorAxis * elements.semiMajorAxis *
      elements.semiMajorAxis) * 365.25)
  match elements.meanMotion with
  | none => derived
  | some n => if n = 0 then derived else n

/-- The current mean anomaly computed by `calculatePosition`:
`M = (M0 + n * daysSinceEpoch) % 360; if (M < 0) M += 360`. -/
noncomputable def currentMeanAnomaly (elements : OrbitalElements) (julianDate : ℝ) : ℝ :=
  let n := meanMotionUsed elements
  let epoch := elements.epoch.getD J2000_JD
  let daysSinceEpoch := julianDate - epoch
  let M := jsMod (elements.meanAnomaly + n * daysSinceEpoch) 360
  if M < 0 then M + 360 else M

/-- Embedding of `calculatePosition`: element validation, mean-anomaly
normalisation, Kepler solve, true anomaly, heliocentric distance, and the
three-angle rotation into the ecliptic frame. -/
noncomputable def calculatePosition (elements : OrbitalElements) (julianDate : ℝ) :
    Except String CartesianPosition :=
  if ¬ (0 < elements.semiMajorAxis) then .error "Semi-major axis must be positive"
  else if ¬ (MIN_SEMI_MAJOR_AXIS ≤ elements.semiMajorAxis ∧
      elements.semiMajorAxis ≤ MAX_SEMI_MAJOR_AXIS) then
    .error "Semi-major axis must be between 0.00001 and 100000"
  else if ¬ (0 ≤ elements.eccentricity ∧ elements.eccentricity ≤ 1 - numberEpsilon) then
    .error "Eccentricity must be between 0 and 1 - Number.EPSILON"
  else if ¬ (0 < meanMotionUsed elements) then .error "Mean motion must be positive"
  else do
    let E ← solveKeplerEquation (currentMeanAnomaly elements julianDate) elements.eccentricity
    let nu ← trueAnomalyFromEccentric E elements.eccentricity
    let r ← calculateHeliocentricDistance elements.semiMajorAxis elements.eccentricity nu
    let iRad := elements.inclination * (Real.pi / 180)
    let omegaRad := elements.longitudeOfAscendingNode * (Real.pi / 180)
    let wRad := elements.argumentOfPerihelion * (Real.pi / 180)
    let xOrbital := r * Real.cos nu
    let yOrbital := r * Real.sin nu
    let cosW := Real.cos wRad
    let sinW := Real.sin wRad
    let cosOmega := Real.cos omegaRad
    let sinOmega := Real.sin omegaRad
    let cosI := Real.cos iRad
    let sinI := Real.sin iRad
    .ok ⟨(cosW * cosOmega - sinW * sinOmega * cosI) * xOrbital +
          (-sinW * cosOmega - cosW * sinOmega * cosI) * yOrbital,
         (cosW * sinOmega + sinW * cosOmega * cosI) * xOrbital +
          (-sinW * sinOmega + cosW * cosOmega * cosI) * yOrbital,
         (sinW * sinI) * xOrbital + (cosW * sinI) * yOrbital⟩

end OrbitalMechanics

/-! ## Body hierarchy (`CelestialBody.ts`, `SolarSystemBuilder.update`)

A body's Three.js `group.position` is a `Vec3`; a parent object reference
becomes an index into the update array (the builder pushes every parent
before its children: Sun, then planets, then moons, then dwarf planets with
their moons).  `SolarSystemBuilder.update` iterates over `allBodies` in
order, so a child reads its parent's position as already updated in the same
pass; this in-place mutation is modelled by threading the partially updated
list. -/

/-- A Three.js vector. -/
structure Vec3 where
  x : ℝ
  y : ℝ
  z : ℝ

/-- The state of a `CelestialBody` relevant to the update pass. -/
structure Body where
  orbitalElements : Option OrbitalMechanics.OrbitalElements
  parentBody : Option ℕ
  position : Vec3
  rotationPeriod : ℝ
  hasMesh : Bool
  rotationY : ℝ

namespace CelestialBody

/-- `CelestialBody.SCALE_FACTOR` (100 units = 1 AU). -/
noncomputable def SCALE_FACTOR : ℝ := 100

/-- `CelestialBody.MOON_ORBIT_SCALE` (moon-orbit exaggeration). -/
noncomputable def MOON_ORBIT_SCALE : ℝ := 50

/-- Embedding of `CelestialBody.update`: `assertNonNegative(deltaTime)`
throws on a negative delta; a body with orbital elements is repositioned
(child bodies at `parentPos + position * SCALE_FACTOR * MOON_ORBIT_SCALE`,
root bodies at `position * SCALE_FACTOR`); a body with a mesh and a nonzero
rotation period accumulates spin.  `bodies` is the current state of the
update array used to resolve the parent reference (in the source the parent
is an object reference that always resolves; an out-of-range index cannot
occur for an assembled system). -/
noncomputable def update (julianDate deltaTime timeScale : ℝ)
    (bodies : List Body) (b : Body) : Except String Body :=
  if ¬ (0 ≤ deltaTime) then .error "delta time must be non-negative"
  else do
    let b1 ←
      match b.orbitalElements with
      | none => pure b
      | some elements => do
          let position ← OrbitalMechanics.calculatePosition elements julianDate
          match b.parentBody with
          | some parentIdx =>
              match bodies.get? parentIdx with
              | none => .error "parent body must be resolved"
              | some parent =>
                  pure { b with position :=
                    ⟨parent.position.x + position.x * (SCALE_FACTOR * MOON_ORBIT_SCALE),
                     parent.position.y + position.y * (SCALE_FACTOR * MOON_ORBIT_SCALE),
                     parent.position.z + position.z * (SCALE_FACTOR * MOON_ORBIT_SCALE)⟩ }
          | none =>
              pure { b with position :=
                ⟨position.x * SCALE_FACTOR, position.y * SCALE_FACTOR,
                 position.z * SCALE_FACTOR⟩ }
    if b1.hasMesh ∧ b1.rotationPeriod ≠ 0 then
      pure { b1 with rotationY :=
        b1.rotationY + 1 / 3600 / b1.rotationPeriod * (2 * Real.pi) * deltaTime * timeScale }
    else
      pure b1

end CelestialBody

namespace SolarSystemBuilder

/-- `MAX_BODIES` in `SolarSystemBuilder`. -/
def MAX_BODIES : ℕ := 200

/-- The `for (const body of this.allBodies) body.update(...)` loop:
`done` holds the already-updated prefix, `todo` the rest; each body reads
the array in its current state (updated prefix, untouched suffix). -/
noncomputable def runUpdate (julianDate delta timeScale : ℝ) :
    List Body → List Body → Except String (List Body)
  | done, [] => .ok done
  | done, b :: rest =>
      match CelestialBody.update julianDate delta timeScale (done ++ b :: rest) b with
      | .error e => .error e
      | .ok b2 => runUpdate julianDate delta timeScale (done ++ [b2]) rest

/-- Embedding of `SolarSystemBuilder.update`: the non-negative delta
precondition, the body-count invariant, then the per-body update loop.
(The trailing ring-system pass does not modify any body position and is
omitted.) -/
noncomputable def update (julianDate delta timeScale : ℝ)
    (allBodies : List Body) : Except String (List Body) :=
  if ¬ (0 ≤ delta) then .error "Delta time must be non-negative"
  else if ¬ (allBodies.length ≤ MAX_BODIES) then
    .error "Body count exceeds maximum during update"
  else runUpdate julianDate delta timeScale [] allBodies

end SolarSystemBuilder

/-- Unfolding of `Except` bind at an `ok` value. -/
theorem exceptBind_ok {α β : Type} (a : α) (f : α → Except String β) :
    (Except.ok a >>= f) = f a := rfl

/-- Unfolding of `Except` bind at a `pure` value. -/
theorem exceptBind_pure {α β : Type} (a : α) (f : α → Except String β) :
    ((pure a : Except String α) >>= f) = f a := rfl

/-- Unfolding of `Except` bind at an `error` value. -/
theorem exceptBind_error {α β : Type} (e : String) (f : α → Except String β) :
    ((Except.error e : Except String α) >>= f) = .error e := rfl

namespace TimeController

theorem floorMul36525 (x : ℤ) : ⌊(365.25 : ℚ) * (x : ℚ)⌋ = 1461 * x / 4 := by
  have h : (365.25 : ℚ) * (x : ℚ) = ((1461 * x : ℤ) : ℚ) / ((4 : ℕ) : ℚ) := by
    push_cast; ring
  rw [h, Rat.floor_intCast_div_natCast]
  norm_num

theorem floorMul306001 (x : ℤ) : ⌊(30.6001 : ℚ) * (x : ℚ)⌋ = 306001 * x / 10000 := by
  have h : (30.6001 : ℚ) * (x : ℚ) = ((306001 * x : ℤ) : ℚ) / ((10000 : ℕ) : ℚ) := by
    push_cast; ring
  rw [h, Rat.floor_intCast_div_natCast]
  norm_num

theorem floorDiv100 (x : ℤ) : ⌊(x : ℚ) / 100⌋ = x / 100 := by
  have h : (x : ℚ) / 100 = ((x : ℤ) : ℚ) / ((100 : ℕ) : ℚ) := by norm_num
  rw [h, Rat.floor_intCast_div_natCast]
  norm_num

theorem floorDiv4 (x : ℤ) : ⌊(x : ℚ) / 4⌋ = x / 4 := by
  have h : (x : ℚ) / 4 = ((x : ℤ) : ℚ) / ((4 : ℕ) : ℚ) := by norm_num
  rw [h, Rat.floor_intCast_div_natCast]
  norm_num

theorem floorAlpha (Z : ℤ) :
    ⌊((Z : ℚ) - 1867216.25) / 36524.25⌋ = (4 * Z - 7468865) / 146097 := by
  have h : ((Z : ℚ) - 1867216.25) / 36524.25 = ((4 * Z - 7468865 : ℤ) : ℚ) / ((146097 : ℕ) : ℚ) := by
    push_cast; ring
  rw [h, Rat.floor_intCast_div_natCast]
  norm_num

theorem floorMeeusC (B : ℤ) :
    ⌊((B : ℚ) - 122.1) / 365.25⌋ = (20 * B - 2442) / 7305 := by
  have h : ((B : ℚ) - 122.1) / 365.25 = ((20 * B - 2442 : ℤ) : ℚ) / ((7305 : ℕ) : ℚ) := by
    push_cast; ring
  rw [h, Rat.floor_intCast_div_natCast]
  norm_num

theorem floorMeeusE (x : ℤ) : ⌊(x : ℚ) / 30.6001⌋ = 10000 * x / 306001 := by
  have h : (x : ℚ) / 30.6001 = ((10000 * x : ℤ) : ℚ) / ((306001 : ℕ) : ℚ) := by
    push_cast; ring
  rw [h, Rat.floor_intCast_div_natCast]
  norm_num

/-- The time-of-day fraction read from a date by `dateToJulian`. -/
def timeOfDay (d : CalDate) : ℚ :=
  ((d.hour : ℚ) + (d.minute : ℚ) / 60 + (d.second : ℚ) / 3600) / 24

theorem dateToJulian_eq_dayNumber (d : CalDate) :
    dateToJulian d = ((dayNumberI d.year d.month d.day : ℤ) : ℚ) - 1 / 2 + timeOfDay d := by
  by_cases hm : d.month ≤ 2
  · simp only [dateToJulian, dayNumberI, timeOfDay, hm, if_true, reduceIte]
    rw [show ((d.year - 1 : ℤ) : ℚ) + 4716 = ((d.year - 1 + 4716 : ℤ) : ℚ) by push_cast; ring,
      show ((d.month + 12 : ℤ) : ℚ) + 1 = ((d.month + 12 + 1 : ℤ) : ℚ) by push_cast; ring,
      floorMul36525, floorMul306001, floorDiv100, floorDiv4]
    push_cast
    ring
  · simp only [dateToJulian, dayNumberI, timeOfDay, hm, if_false, reduceIte]
    rw [show ((d.year : ℤ) : ℚ) + 4716 = ((d.year + 4716 : ℤ) : ℚ) by push_cast; ring,
      show ((d.month : ℤ) : ℚ) + 1 = ((d.month + 1 : ℤ) : ℚ) by push_cast; ring,
      floorMul36525, floorMul306001, floorDiv100, floorDiv4]
    push_cast
    ring

theorem julianToDate_int_frac (N : ℤ) (t : ℚ) (h0 : 0 ≤ t) (h1 : t < 1)
    (hN1 : 1 ≤ N) (hN2 : N ≤ 19999999) :
    julianToDate ((N : ℚ) - 1 / 2 + t) =
      .ok ⟨jdYear N, jdMonth N, jdDay N,
           ⌊t * 24⌋,
           ⌊(t * 24 - ((⌊t * 24⌋ : ℤ) : ℚ)) * 60⌋,
           ⌊((t * 24 - ((⌊t * 24⌋ : ℤ) : ℚ)) * 60 -
              ((⌊(t * 24 - ((⌊t * 24⌋ : ℤ) : ℚ)) * 60⌋ : ℤ) : ℚ)) * 60⌋⟩ := by
  have hNq1 : (1 : ℚ) ≤ (N : ℚ) := by exact_mod_cast hN1
  have hNq2 : (N : ℚ) ≤ 19999999 := by exact_mod_cast hN2
  have hband : MIN_JULIAN_DATE < (N : ℚ) - 1 / 2 + t ∧ (N : ℚ) - 1 / 2 + t < MAX_JULIAN_DATE := by
    unfold MIN_JULIAN_DATE MAX_JULIAN_DATE
    constructor <;> linarith
  have hZq : (N : ℚ) - 1 / 2 + t + 0.5 = (N : ℚ) + t := by
    rw [show (0.5 : ℚ) = 1 / 2 by norm_num]; ring
  have hZ : ⌊(N : ℚ) - 1 / 2 + t + 0.5⌋ = N := by
    rw [hZq, Int.floor_int_add, Int.floor_eq_zero_iff.mpr ⟨h0, h1⟩, add_zero]
  have hF : (N : ℚ) - 1 / 2 + t + 0.5 - ((N : ℤ) : ℚ) = t := by
    rw [hZq]; ring
  simp only [julianToDate, if_pos hband, hZ, hF]
  simp only [floorAlpha, floorDiv4, floorMeeusC, floorMul36525, ← Int.cast_sub,
    floorMeeusE, floorMul306001]
  simp only [jdYear, jdMonth, jdDay, jdE, jdD, jdC, jdB, jdA]

/-- Date-part round trip for month 1 over the supported year band. -/
theorem rtMonth1 (y d : ℤ) (hy1 : 1900 ≤ y) (hy2 : y ≤ 2100) (hd1 : 1 ≤ d)
    (hd2 : d ≤ 31) :
    (jdYear (dayNumberI y 1 d), jdMonth (dayNumberI y 1 d), jdDay (dayNumberI y 1 d)) =
      (y, 1, d) := by
  have hA : jdA (dayNumberI y 1 d) = 1461 * (y + 4715) / 4 + 428 + d - 1524 := by
    simp only [dayNumberI, jdA]
    norm_num
    rcases (by omega : (y = 1900) ∨ (1901 ≤ y ∧ y ≤ 2000) ∨ (2001 ≤ y ∧ y ≤ 2100)) with h | h | h
    · subst h; split_ifs <;> omega
    · have he : (y - 1) / 100 = 19 := by omega
      rcases (by omega : y % 4 = 0 ∨ y % 4 = 1 ∨ y % 4 = 2 ∨ y % 4 = 3) with h4 | h4 | h4 | h4 <;>
        split_ifs <;> omega
    · have he : (y - 1) / 100 = 20 := by omega
      rcases (by omega : y % 4 = 0 ∨ y % 4 = 1 ∨ y % 4 = 2 ∨ y % 4 = 3) with h4 | h4 | h4 | h4 <;>
        split_ifs <;> omega
  have hC : jdC (dayNumberI y 1 d) = y + 4715 := by
    simp only [jdC, jdB, hA]
    rcases (by omega : y % 4 = 0 ∨ y % 4 = 1 ∨ y % 4 = 2 ∨ y % 4 = 3) with h4 | h4 | h4 | h4 <;> omega
  have hD : jdD (dayNumberI y 1 d) = 1461 * (y + 4715) / 4 := by
    simp only [jdD, hC]
  have hE : jdE (dayNumberI y 1 d) = 14 := by
    simp only [jdE, jdB, hA, hD]; omega
  simp only [jdYear, jdMonth, jdDay, jdB, hA, hC, hD, hE]
  norm_num
  omega

/-- Date-part round trip for month 2 over the supported year band. -/
theorem rtMonth2 (y d : ℤ) (hy1 : 1900 ≤ y) (hy2 : y ≤ 2100) (hd1 : 1 ≤ d)
    (hd2 : d ≤ (if y % 4 = 0 ∧ (y % 100 ≠ 0 ∨ y % 400 = 0) then 29 else 28)) :
    (jdYear (dayNumberI y 2 d), jdMonth (dayNumberI y 2 d), jdDay (dayNumberI y 2 d)) =
      (y, 2, d) := by
  have hd2' : d ≤ 28 ∨ (d = 29 ∧ y % 4 = 0 ∧ y ≠ 1900 ∧ y ≠ 2000 ∧ y ≠ 2100) ∨ (d = 29 ∧ y = 2000) := by
    split_ifs at hd2 with hl
    · omega
    · omega
  clear hd2
  have hA : jdA (dayNumberI y 2 d) = 1461 * (y + 4715) / 4 + 459 + d - 1524 := by
    simp only [dayNumberI, jdA]
    norm_num
    rcases (by omega : (y = 1900) ∨ (1901 ≤ y ∧ y ≤ 2000) ∨ (2001 ≤ y ∧ y ≤ 2100)) with h | h | h
    · subst h; split_ifs <;> omega
    · have he : (y - 1) / 100 = 19 := by omega
      rcases (by omega : y % 4 = 0 ∨ y % 4 = 1 ∨ y % 4 = 2 ∨ y % 4 = 3) with h4 | h4 | h4 | h4 <;>
        split_ifs <;> omega
    · have he : (y - 1) / 100 = 20 := by omega
      rcases (by omega : y % 4 = 0 ∨ y % 4 = 1 ∨ y % 4 = 2 ∨ y % 4 = 3) with h4 | h4 | h4 | h4 <;>
        split_ifs <;> omega
  have hC : jdC (dayNumberI y 2 d) = y + 4715 := by
    simp only [jdC, jdB, hA]
    rcases (by omega : y % 4 = 0 ∨ y % 4 = 1 ∨ y % 4 = 2 ∨ y % 4 = 3) with h4 | h4 | h4 | h4 <;> omega
  have hD : jdD (dayNumberI y 2 d) = 1461 * (y + 4715) / 4 := by
    simp only [jdD, hC]
  have hE : jdE (dayNumberI y 2 d) = 15 := by
    simp only [jdE, jdB, hA, hD]; omega
  simp only [jdYear, jdMonth, jdDay, jdB, hA, hC, hD, hE]
  norm_num
  omega

/-- Date-part round trip for month 3 over the supported year band. -/
theorem rtMonth3 (y d : ℤ) (hy1 : 1900 ≤ y) (hy2 : y ≤ 2100) (hd1 : 1 ≤ d)
    (hd2 : d ≤ 31) :
    (jdYear (dayNumberI y 3 d), jdMonth (dayNumberI y 3 d), jdDay (dayNumberI y 3 d)) =
      (y, 3, d) := by
  have hA : jdA (dayNumberI y 3 d) = 1461 * (y + 4716) / 4 + 122 + d - 1524 := by
    simp only [dayNumberI, jdA]
    norm_num
    rcases (by omega : (1900 ≤ y ∧ y ≤ 1999) ∨ (2000 ≤ y ∧ y ≤ 2099) ∨ (y = 2100)) with h | h | h
    · have he : y / 100 = 19 := by omega
      rcases (by omega : y % 4 = 0 ∨ y % 4 = 1 ∨ y % 4 = 2 ∨ y % 4 = 3) with h4 | h4 | h4 | h4 <;>
        split_ifs <;> omega
    · have he : y / 100 = 20 := by omega
      rcases (by omega : y % 4 = 0 ∨ y % 4 = 1 ∨ y % 4 = 2 ∨ y % 4 = 3) with h4 | h4 | h4 | h4 <;>
        split_ifs <;> omega
    · subst h; split_ifs <;> omega
  have hC : jdC (dayNumberI y 3 d) = y + 4716 := by
    simp only [jdC, jdB, hA]
    rcases (by omega : y % 4 = 0 ∨ y % 4 = 1 ∨ y % 4 = 2 ∨ y % 4 = 3) with h4 | h4 | h4 | h4 <;> omega
  have hD : jdD (dayNumberI y 3 d) = 1461 * (y + 4716) / 4 := by
    simp only [jdD, hC]
  have hE : jdE (dayNumberI y 3 d) = 4 := by
    simp only [jdE, jdB, hA, hD]; omega
  simp only [jdYear, jdMonth, jdDay, jdB, hA, hC, hD, hE]
  norm_num
  omega

/-- Date-part round trip for month 4 over the supported year band. -/
theorem rtMonth4 (y d : ℤ) (hy1 : 1900 ≤ y) (hy2 : y ≤ 2100) (hd1 : 1 ≤ d)
    (hd2 : d ≤ 30) :
    (jdYear (dayNumberI y 4 d), jdMonth (dayNumberI y 4 d), jdDay (dayNumberI y 4 d)) =
      (y, 4, d) := by
  have hA : jdA (dayNumberI y 4 d) = 1461 * (y + 4716) / 4 + 153 + d - 1524 := by
    simp only [dayNumberI, jdA]
    norm_num
    rcases (by omega : (1900 ≤ y ∧ y ≤ 1999) ∨ (2000 ≤ y ∧ y ≤ 2099) ∨ (y = 2100)) with h | h | h
    · have he : y / 100 = 19 := by omega
      rcases (by omega : y % 4 = 0 ∨ y % 4 = 1 ∨ y % 4 = 2 ∨ y % 4 = 3) with h4 | h4 | h4 | h4 <;>
        split_ifs <;> omega
    · have he : y / 100 = 20 := by omega
      rcases (by omega : y % 4 = 0 ∨ y % 4 = 1 ∨ y % 4 = 2 ∨ y % 4 = 3) with h4 | h4 | h4 | h4 <;>
        split_ifs <;> omega
    · subst h; split_ifs <;> omega
  have hC : jdC (dayNumberI y 4 d) = y + 4716 := by
    simp only [jdC, jdB, hA]
    rcases (by omega : y % 4 = 0 ∨ y % 4 = 1 ∨ y % 4 = 2 ∨ y % 4 = 3) with h4 | h4 | h4 | h4 <;> omega
  have hD : jdD (dayNumberI y 4 d) = 1461 * (y + 4716) / 4 := by
    simp only [jdD, hC]
  have hE : jdE (dayNumberI y 4 d) = 5 := by
    simp only [jdE, jdB, hA, hD]; omega
  simp only [jdYear, jdMonth, jdDay, jdB, hA, hC, hD, hE]
  norm_num
  omega

/-- Date-part round trip for month 5 over the supported year band. -/
theorem rtMonth5 (y d : ℤ) (hy1 : 1900 ≤ y) (hy2 : y ≤ 2100) (hd1 : 1 ≤ d)
    (hd2 : d ≤ 31) :
    (jdYear (dayNumberI y 5 d), jdMonth (dayNumberI y 5 d), jdDay (dayNumberI y 5 d)) =
      (y, 5, d) := by
  have hA : jdA (dayNumberI y 5 d) = 1461 * (y + 4716) / 4 + 183 + d - 1524 := by
    simp only [dayNumberI, jdA]
    norm_num
    rcases (by omega : (1900 ≤ y ∧ y ≤ 1999) ∨ (2000 ≤ y ∧ y ≤ 2099) ∨ (y = 2100)) with h | h | h
    · have he : y / 100 = 19 := by omega
      rcases (by omega : y % 4 = 0 ∨ y % 4 = 1 ∨ y % 4 = 2 ∨ y % 4 = 3) with h4 | h4 | h4 | h4 <;>
        split_ifs <;> omega
    · have he : y / 100 = 20 := by omega
      rcases (by omega : y % 4 = 0 ∨ y % 4 = 1 ∨ y % 4 = 2 ∨ y % 4 = 3) with h4 | h4 | h4 | h4 <;>
        split_ifs <;> omega
    · subst h; split_ifs <;> omega
  have hC : jdC (dayNumberI y 5 d) = y + 4716 := by
    simp only [jdC, jdB, hA]
    rcases (by omega : y % 4 = 0 ∨ y % 4 = 1 ∨ y % 4 = 2 ∨ y % 4 = 3) with h4 | h4 | h4 | h4 <;> omega
  have hD : jdD (dayNumberI y 5 d) = 1461 * (y + 4716) / 4 := by
    simp only [jdD, hC]
  have hE : jdE (dayNumberI y 5 d) = 6 := by
    simp only [jdE, jdB, hA, hD]; omega
  simp only [jdYear, jdMonth, jdDay, jdB, hA, hC, hD, hE]
  norm_num
  omega

/-- Date-part round trip for month 6 over the supported year band. -/
theorem rtMonth6 (y d : ℤ) (hy1 : 1900 ≤ y) (hy2 : y ≤ 2100) (hd1 : 1 ≤ d)
    (hd2 : d ≤ 30) :
    (jdYear (dayNumberI y 6 d), jdMonth (dayNumberI y 6 d), jdDay (dayNumberI y 6 d)) =
      (y, 6, d) := by
  have hA : jdA (dayNumberI y 6 d) = 1461 * (y + 4716) / 4 + 214 + d - 1524 := by
    simp only [dayNumberI, jdA]
    norm_num
    rcases (by omega : (1900 ≤ y ∧ y ≤ 1999) ∨ (2000 ≤ y ∧ y ≤ 2099) ∨ (y = 2100)) with h | h | h
    · have he : y / 100 = 19 := by omega
      rcases (by omega : y % 4 = 0 ∨ y % 4 = 1 ∨ y % 4 = 2 ∨ y % 4 = 3) with h4 | h4 | h4 | h4 <;>
        split_ifs <;> omega
    · have he : y / 100 = 20 := by omega
      rcases (by omega : y % 4 = 0 ∨ y % 4 = 1 ∨ y % 4 = 2 ∨ y % 4 = 3) with h4 | h4 | h4 | h4 <;>
        split_ifs <;> omega
    · subst h; split_ifs <;> omega
  have hC : jdC (dayNumberI y 6 d) = y + 4716 := by
    simp only [jdC, jdB, hA]
    rcases (by omega : y % 4 = 0 ∨ y % 4 = 1 ∨ y % 4 = 2 ∨ y % 4 = 3) with h4 | h4 | h4 | h4 <;> omega
  have hD : jdD (dayNumberI y 6 d) = 1461 * (y + 4716) / 4 := by
    simp only [jdD, hC]
  have hE : jdE (dayNumberI y 6 d) = 7 := by
    simp only [jdE, jdB, hA, hD]; omega
  simp only [jdYear, jdMonth, jdDay, jdB, hA, hC, hD, hE]
  norm_num
  omega

/-- Date-part round trip for month 7 over the supported year band. -/
theorem rtMonth7 (y d : ℤ) (hy1 : 1900 ≤ y) (hy2 : y ≤ 2100) (hd1 : 1 ≤ d)
    (hd2 : d ≤ 31) :
    (jdYear (dayNumberI y 7 d), jdMonth (dayNumberI y 7 d), jdDay (dayNumberI y 7 d)) =
      (y, 7, d) := by
  have hA : jdA (dayNumberI y 7 d) = 1461 * (y + 4716) / 4 + 244 + d - 1524 := by
    simp only [dayNumberI, jdA]
    norm_num
    rcases (by omega : (1900 ≤ y ∧ y ≤ 1999) ∨ (2000 ≤ y ∧ y ≤ 2099) ∨ (y = 2100)) with h | h | h
    · have he : y / 100 = 19 := by omega
      rcases (by omega : y % 4 = 0 ∨ y % 4 = 1 ∨ y % 4 = 2 ∨ y % 4 = 3) with h4 | h4 | h4 | h4 <;>
        split_ifs <;> omega
    · have he : y / 100 = 20 := by omega
      rcases (by omega : y % 4 = 0 ∨ y % 4 = 1 ∨ y % 4 = 2 ∨ y % 4 = 3) with h4 | h4 | h4 | h4 <;>
        split_ifs <;> omega
    · subst h; split_ifs <;> omega
  have hC : jdC (dayNumberI y 7 d) = y + 4716 := by
    simp only [jdC, jdB, hA]
    rcases (by omega : y % 4 = 0 ∨ y % 4 = 1 ∨ y % 4 = 2 ∨ y % 4 = 3) with h4 | h4 | h4 | h4 <;> omega
  have hD : jdD (dayNumberI y 7 d) = 1461 * (y + 4716) / 4 := by
    simp only [jdD, hC]
  have hE : jdE (dayNumberI y 7 d) = 8 := by
    simp only [jdE, jdB, hA, hD]; omega
  simp only [jdYear, jdMonth, jdDay, jdB, hA, hC, hD, hE]
  norm_num
  omega

/-- Date-part round trip for month 8 over the supported year band. -/
theorem rtMonth8 (y d : ℤ) (hy1 : 1900 ≤ y) (hy2 : y ≤ 2100) (hd1 : 1 ≤ d)
    (hd2 : d ≤ 31) :
    (jdYear (dayNumberI y 8 d), jdMonth (dayNumberI y 8 d), jdDay (dayNumberI y 8 d)) =
      (y, 8, d) := by
  have hA : jdA (dayNumberI y 8 d) = 1461 * (y + 4716) / 4 + 275 + d - 1524 := by
    simp only [dayNumberI, jdA]
    norm_num
    rcases (by omega : (1900 ≤ y ∧ y ≤ 1999) ∨ (2000 ≤ y ∧ y ≤ 2099) ∨ (y = 2100)) with h | h | h
    · have he : y / 100 = 19 := by omega
      rcases (by omega : y % 4 = 0 ∨ y % 4 = 1 ∨ y % 4 = 2 ∨ y % 4 = 3) with h4 | h4 | h4 | h4 <;>
        split_ifs <;> omega
    · have he : y / 100 = 20 := by omega
      rcases (by omega : y % 4 = 0 ∨ y % 4 = 1 ∨ y % 4 = 2 ∨ y % 4 = 3) with h4 | h4 | h4 | h4 <;>
        split_ifs <;> omega
    · subst h; split_ifs <;> omega
  have hC : jdC (dayNumberI y 8 d) = y + 4716 := by
    simp only [jdC, jdB, hA]
    rcases (by omega : y % 4 = 0 ∨ y % 4 = 1 ∨ y % 4 = 2 ∨ y % 4 = 3) with h4 | h4 | h4 | h4 <;> omega
  have hD : jdD (dayNumberI y 8 d) = 1461 * (y + 4716) / 4 := by
    simp only [jdD, hC]
  have hE : jdE (dayNumberI y 8 d) = 9 := by
    simp only [jdE, jdB, hA, hD]; omega
  simp only [jdYear, jdMonth, jdDay, jdB, hA, hC, hD, hE]
  norm_num
  omega

/-- Date-part round trip for month 9 over the supported year band. -/
theorem rtMonth9 (y d : ℤ) (hy1 : 1900 ≤ y) (hy2 : y ≤ 2100) (hd1 : 1 ≤ d)
    (hd2 : d ≤ 30) :
    (jdYear (dayNumberI y 9 d), jdMonth (dayNumberI y 9 d), jdDay (dayNumberI y 9 d)) =
      (y, 9, d) := by
  have hA : jdA (dayNumberI y 9 d) = 1461 * (y + 4716) / 4 + 306 + d - 1524 := by
    simp only [dayNumberI, jdA]
    norm_num
    rcases (by omega : (1900 ≤ y ∧ y ≤ 1999) ∨ (2000 ≤ y ∧ y ≤ 2099) ∨ (y = 2100)) with h | h | h
    · have he : y / 100 = 19 := by omega
      rcases (by omega : y % 4 = 0 ∨ y % 4 = 1 ∨ y % 4 = 2 ∨ y % 4 = 3) with h4 | h4 | h4 | h4 <;>
        split_ifs <;> omega
    · have he : y / 100 = 20 := by omega
      rcases (by omega : y % 4 = 0 ∨ y % 4 = 1 ∨ y % 4 = 2 ∨ y % 4 = 3) with h4 | h4 | h4 | h4 <;>
        split_ifs <;> omega
    · subst h; split_ifs <;> omega
  have hC : jdC (dayNumberI y 9 d) = y + 4716 := by
    simp only [jdC, jdB, hA]
    rcases (by omega : y % 4 = 0 ∨ y % 4 = 1 ∨ y % 4 = 2 ∨ y % 4 = 3) with h4 | h4 | h4 | h4 <;> omega
  have hD : jdD (dayNumberI y 9 d) = 1461 * (y + 4716) / 4 := by
    simp only [jdD, hC]
  have hE : jdE (dayNumberI y 9 d) = 10 := by
    simp only [jdE, jdB, hA, hD]; omega
  simp only [jdYear, jdMonth, jdDay, jdB, hA, hC, hD, hE]
  norm_num
  omega

/-- Date-part round trip for month 10 over the supported year band. -/
theorem rtMonth10 (y d : ℤ) (hy1 : 1900 ≤ y) (hy2 : y ≤ 2100) (hd1 : 1 ≤ d)
    (hd2 : d ≤ 31) :
    (jdYear (dayNumberI y 10 d), jdMonth (dayNumberI y 10 d), jdDay (dayNumberI y 10 d)) =
      (y, 10, d) := by
  have hA : jdA (dayNumberI y 10 d) = 1461 * (y + 4716) / 4 + 336 + d - 1524 := by
    simp only [dayNumberI, jdA]
    norm_num
    rcases (by omega : (1900 ≤ y ∧ y ≤ 1999) ∨ (2000 ≤ y ∧ y ≤ 2099) ∨ (y = 2100)) with h | h | h
    · have he : y / 100 = 19 := by omega
      rcases (by omega : y % 4 = 0 ∨ y % 4 = 1 ∨ y % 4 = 2 ∨ y % 4 = 3) with h4 | h4 | h4 | h4 <;>
        split_ifs <;> omega
    · have he : y / 100 = 20 := by omega
      rcases (by omega : y % 4 = 0 ∨ y % 4 = 1 ∨ y % 4 = 2 ∨ y % 4 = 3) with h4 | h4 | h4 | h4 <;>
        split_ifs <;> omega
    · subst h; split_ifs <;> omega
  have hC : jdC (dayNumberI y 10 d) = y + 4716 := by
    simp only [jdC, jdB, hA]
    rcases (by omega : y % 4 = 0 ∨ y % 4 = 1 ∨ y % 4 = 2 ∨ y % 4 = 3) with h4 | h4 | h4 | h4 <;> omega
  have hD : jdD (dayNumberI y 10 d) = 1461 * (y + 4716) / 4 := by
    simp only [jdD, hC]
  have hE : jdE (dayNumberI y 10 d) = 11 := by
    simp only [jdE, jdB, hA, hD]; omega
  simp only [jdYear, jdMonth, jdDay, jdB, hA, hC, hD, hE]
  norm_num
  omega

/-- Date-part round trip for month 11 over the supported year band. -/
theorem rtMonth11 (y d : ℤ) (hy1 : 1900 ≤ y) (hy2 : y ≤ 2100) (hd1 : 1 ≤ d)
    (hd2 : d ≤ 30) :
    (jdYear (dayNumberI y 11 d), jdMonth (dayNumberI y 11 d), jdDay (dayNumberI y 11 d)) =
      (y, 11, d) := by
  have hA : jdA (dayNumberI y 11 d) = 1461 * (y + 4716) / 4 + 367 + d - 1524 := by
    simp only [dayNumberI, jdA]
    norm_num
    rcases (by omega : (1900 ≤ y ∧ y ≤ 1999) ∨ (2000 ≤ y ∧ y ≤ 2099) ∨ (y = 2100)) with h | h | h
    · have he : y / 100 = 19 := by omega
      rcases (by omega : y % 4 = 0 ∨ y % 4 = 1 ∨ y % 4 = 2 ∨ y % 4 = 3) with h4 | h4 | h4 | h4 <;>
        split_ifs <;> omega
    · have he : y / 100 = 20 := by omega
      rcases (by omega : y % 4 = 0 ∨ y % 4 = 1 ∨ y % 4 = 2 ∨ y % 4 = 3) with h4 | h4 | h4 | h4 <;>
        split_ifs <;> omega
    · subst h; split_ifs <;> omega
  have hC : jdC (dayNumberI y 11 d) = y + 4716 := by
    simp only [jdC, jdB, hA]
    rcases (by omega : y % 4 = 0 ∨ y % 4 = 1 ∨ y % 4 = 2 ∨ y % 4 = 3) with h4 | h4 | h4 | h4 <;> omega
  have hD : jdD (dayNumberI y 11 d) = 1461 * (y + 4716) / 4 := by
    simp only [jdD, hC]
  have hE : jdE (dayNumberI y 11 d) = 12 := by
    simp only [jdE, jdB, hA, hD]; omega
  simp only [jdYear, jdMonth, jdDay, jdB, hA, hC, hD, hE]
  norm_num
  omega

/-- Date-part round trip for month 12 over the supported year band. -/
theorem rtMonth12 (y d : ℤ) (hy1 : 1900 ≤ y) (hy2 : y ≤ 2100) (hd1 : 1 ≤ d)
    (hd2 : d ≤ 31) :
    (jdYear (dayNumberI y 12 d), jdMonth (dayNumberI y 12 d), jdDay (dayNumberI y 12 d)) =
      (y, 12, d) := by
  have hA : jdA (dayNumberI y 12 d) = 1461 * (y + 4716) / 4 + 397 + d - 1524 := by
    simp only [dayNumberI, jdA]
    norm_num
    rcases (by omega : (1900 ≤ y ∧ y ≤ 1999) ∨ (2000 ≤ y ∧ y ≤ 2099) ∨ (y = 2100)) with h | h | h
    · have he : y / 100 = 19 := by omega
      rcases (by omega : y % 4 = 0 ∨ y % 4 = 1 ∨ y % 4 = 2 ∨ y % 4 = 3) with h4 | h4 | h4 | h4 <;>
        split_ifs <;> omega
    · have he : y / 100 = 20 := by omega
      rcases (by omega : y % 4 = 0 ∨ y % 4 = 1 ∨ y % 4 = 2 ∨ y % 4 = 3) with h4 | h4 | h4 | h4 <;>
        split_ifs <;> omega
    · subst h; split_ifs <;> omega
  have hC : jdC (dayNumberI y 12 d) = y + 4716 := by
    simp only [jdC, jdB, hA]
    rcases (by omega : y % 4 = 0 ∨ y % 4 = 1 ∨ y % 4 = 2 ∨ y % 4 = 3) with h4 | h4 | h4 | h4 <;> omega
  have hD : jdD (dayNumberI y 12 d) = 1461 * (y + 4716) / 4 := by
    simp only [jdD, hC]
  have hE : jdE (dayNumberI y 12 d) = 13 := by
    simp only [jdE, jdB, hA, hD]; omega
  simp only [jdYear, jdMonth, jdDay, jdB, hA, hC, hD, hE]
  norm_num
  omega

/-- Coarse bounds on the day number over the supported band. -/
theorem dayNumberI_bounds (y m d : ℤ) (hy1 : 1900 ≤ y) (hy2 : y ≤ 2100)
    (hm1 : 1 ≤ m) (hm2 : m ≤ 12) (hd1 : 1 ≤ d) (hd2 : d ≤ 31) :
    2415000 ≤ dayNumberI y m d ∧ dayNumberI y m d ≤ 2488500 := by
  simp only [dayNumberI]
  split_ifs <;> constructor <;> omega

/-- Date-part round trip for any valid date in the supported band. -/
theorem dateRoundtrip (y m d : ℤ) (hy1 : 1900 ≤ y) (hy2 : y ≤ 2100)
    (hm1 : 1 ≤ m) (hm2 : m ≤ 12) (hd1 : 1 ≤ d) (hd2 : d ≤ daysInMonth y m) :
    jdYear (dayNumberI y m d) = y ∧ jdMonth (dayNumberI y m d) = m ∧
      jdDay (dayNumberI y m d) = d := by
  have unpack : ∀ a b c a' b' c' : ℤ, (a, b, c) = (a', b', c') → a = a' ∧ b = b' ∧ c = c' := by
    intro a b c a' b' c' h
    rw [Prod.mk.injEq, Prod.mk.injEq] at h
    exact ⟨h.1, h.2.1, h.2.2⟩
  interval_cases m
  · exact unpack _ _ _ _ _ _ (rtMonth1 y d hy1 hy2 hd1 (by simpa [daysInMonth] using hd2))
  · exact unpack _ _ _ _ _ _ (rtMonth2 y d hy1 hy2 hd1 (by simpa [daysInMonth] using hd2))
  · exact unpack _ _ _ _ _ _ (rtMonth3 y d hy1 hy2 hd1 (by simpa [daysInMonth] using hd2))
  · exact unpack _ _ _ _ _ _ (rtMonth4 y d hy1 hy2 hd1 (by simpa [daysInMonth] using hd2))
  · exact unpack _ _ _ _ _ _ (rtMonth5 y d hy1 hy2 hd1 (by simpa [daysInMonth] using hd2))
  · exact unpack _ _ _ _ _ _ (rtMonth6 y d hy1 hy2 hd1 (by simpa [daysInMonth] using hd2))
  · exact unpack _ _ _ _ _ _ (rtMonth7 y d hy1 hy2 hd1 (by simpa [daysInMonth] using hd2))
  · exact unpack _ _ _ _ _ _ (rtMonth8 y d hy1 hy2 hd1 (by simpa [daysInMonth] using hd2))
  · exact unpack _ _ _ _ _ _ (rtMonth9 y d hy1 hy2 hd1 (by simpa [daysInMonth] using hd2))
  · exact unpack _ _ _ _ _ _ (rtMonth10 y d hy1 hy2 hd1 (by simpa [daysInMonth] using hd2))
  · exact unpack _ _ _ _ _ _ (rtMonth11 y d hy1 hy2 hd1 (by simpa [daysInMonth] using hd2))
  · exact unpack _ _ _ _ _ _ (rtMonth12 y d hy1 hy2 hd1 (by simpa [daysInMonth] using hd2))

/-- Floor extraction of the hour, minute and second fields from the
time-of-day fraction. -/
theorem timeOfDay_floors (d : CalDate) (hv : d.Valid) :
    ⌊timeOfDay d * 24⌋ = d.hour ∧
    ⌊(timeOfDay d * 24 - ((⌊timeOfDay d * 24⌋ : ℤ) : ℚ)) * 60⌋ = d.minute ∧
    ⌊((timeOfDay d * 24 - ((⌊timeOfDay d * 24⌋ : ℤ) : ℚ)) * 60 -
        ((⌊(timeOfDay d * 24 - ((⌊timeOfDay d * 24⌋ : ℤ) : ℚ)) * 60⌋ : ℤ) : ℚ)) * 60⌋ =
      d.second := by
  obtain ⟨-, -, -, hh, hm, hs⟩ := hv
  have hmq0 : (0 : ℚ) ≤ (d.minute : ℚ) := by exact_mod_cast hm.1
  have hmq1 : (d.minute : ℚ) ≤ 59 := by exact_mod_cast hm.2
  have hsq0 : (0 : ℚ) ≤ (d.second : ℚ) := by exact_mod_cast hs.1
  have hsq1 : (d.second : ℚ) ≤ 59 := by exact_mod_cast hs.2
  have e1 : timeOfDay d * 24 = ((d.hour : ℤ) : ℚ) + ((d.minute : ℚ) / 60 + (d.second : ℚ) / 3600) := by
    unfold timeOfDay; push_cast; ring
  have f1 : ⌊timeOfDay d * 24⌋ = d.hour := by
    rw [e1, Int.floor_int_add, Int.floor_eq_zero_iff.mpr ⟨by linarith, by linarith⟩, add_zero]
  have e2 : (timeOfDay d * 24 - ((⌊timeOfDay d * 24⌋ : ℤ) : ℚ)) * 60 =
      ((d.minute : ℤ) : ℚ) + (d.second : ℚ) / 60 := by
    rw [f1, e1]; push_cast; ring
  have f2 : ⌊(timeOfDay d * 24 - ((⌊timeOfDay d * 24⌋ : ℤ) : ℚ)) * 60⌋ = d.minute := by
    rw [e2, Int.floor_int_add, Int.floor_eq_zero_iff.mpr ⟨by linarith, by linarith⟩, add_zero]
  have e3 : ((timeOfDay d * 24 - ((⌊timeOfDay d * 24⌋ : ℤ) : ℚ)) * 60 -
      ((⌊(timeOfDay d * 24 - ((⌊timeOfDay d * 24⌋ : ℤ) : ℚ)) * 60⌋ : ℤ) : ℚ)) * 60 =
      ((d.second : ℤ) : ℚ) := by
    rw [f2, e2]; push_cast; ring
  refine ⟨f1, f2, ?_⟩
  rw [e3, Int.floor_intCast]

/-- Over exact rational arithmetic, the Meeus conversion pair inverts
exactly on every valid calendar date of 1900-01-01 through 2100-12-31: the
real-number algorithm of the source has an exact round-trip.  (The
double-precision implementation does not; see the C5 theorems below.) -/
theorem exactCalendarRoundtrip (d : CalDate) (hv : d.Valid)
    (h1900 : 1900 ≤ d.year) (h2100 : d.year ≤ 2100) :
    julianToDate (dateToJulian d) = .ok d := by
  obtain ⟨hyr, hmo, hdy, hhr, hmin, hsec⟩ := hv
  have hdim : daysInMonth d.year d.month ≤ 31 := by
    unfold daysInMonth; split_ifs <;> omega
  have hN := dayNumberI_bounds d.year d.month d.day h1900 h2100 hmo.1 hmo.2 hdy.1
    (le_trans hdy.2 hdim)
  have hhq0 : (0 : ℚ) ≤ (d.hour : ℚ) := by exact_mod_cast hhr.1
  have hhq1 : (d.hour : ℚ) ≤ 23 := by exact_mod_cast hhr.2
  have hmq0 : (0 : ℚ) ≤ (d.minute : ℚ) := by exact_mod_cast hmin.1
  have hmq1 : (d.minute : ℚ) ≤ 59 := by exact_mod_cast hmin.2
  have hsq0 : (0 : ℚ) ≤ (d.second : ℚ) := by exact_mod_cast hsec.1
  have hsq1 : (d.second : ℚ) ≤ 59 := by exact_mod_cast hsec.2
  have ht0 : 0 ≤ timeOfDay d := by
    unfold timeOfDay
    have : (0 : ℚ) ≤ (d.hour : ℚ) + (d.minute : ℚ) / 60 + (d.second : ℚ) / 3600 := by linarith
    linarith
  have ht1 : timeOfDay d < 1 := by
    unfold timeOfDay
    have : (d.hour : ℚ) + (d.minute : ℚ) / 60 + (d.second : ℚ) / 3600 < 24 := by linarith
    linarith
  rw [dateToJulian_eq_dayNumber,
    julianToDate_int_frac _ _ ht0 ht1 (by omega) (by omega)]
  have hdate := dateRoundtrip d.year d.month d.day h1900 h2100 hmo.1 hmo.2 hdy.1 hdy.2
  have htf := timeOfDay_floors d
    ⟨hyr, hmo, hdy, hhr, hmin, hsec⟩
  obtain ⟨y, mo, dy, hh, mm, ss⟩ := d
  simp only [Except.ok.injEq, CalDate.mk.injEq]
  exact ⟨hdate.1, hdate.2.1, hdate.2.2, htf.1, htf.2.1, htf.2.2⟩

/-- Correctness of `qfloor`: it is the floor function on `ℚ`. -/
theorem qfloor_eq_floor (q : ℚ) : qfloor q = ⌊q⌋ := by
  conv_rhs => rw [← Rat.num_div_den q]
  rw [Rat.floor_intCast_div_natCast]
  rfl

/-- Correctness of `rne`: the rounded integer is within one half of the
argument. -/
theorem rne_dist (x : ℚ) : |(rne x : ℚ) - x| ≤ 1/2 := by
  simp only [rne, qfloor_eq_floor]
  have h0 : ((⌊x⌋ : ℤ) : ℚ) ≤ x := Int.floor_le x
  have h1 : x < (⌊x⌋ : ℚ) + 1 := Int.lt_floor_add_one x
  split_ifs with hlt hgt hev
  · rw [abs_sub_comm, abs_of_nonneg (by linarith)]; linarith
  · push_cast
    rw [abs_of_nonneg (by linarith)]
    linarith
  · rw [abs_sub_comm, abs_of_nonneg (by linarith)]; linarith
  · push_cast
    rw [abs_of_nonneg (by linarith)]
    linarith

/-- Correctness of `floorLog2`: for positive `q` it is exactly `⌊log₂ q⌋`,
i.e. the unique `e` with `2 ^ e ≤ q < 2 ^ (e + 1)`. -/
theorem floorLog2_spec (q : ℚ) (hq : 0 < q) :
    (2:ℚ) ^ floorLog2 q ≤ q ∧ q < (2:ℚ) ^ (floorLog2 q + 1) := by
  have hnum : 0 < q.num := Rat.num_pos.mpr hq
  have hden : 0 < (q.den : ℚ) := by exact_mod_cast q.pos
  have hn1 : q.num.natAbs ≠ 0 := Int.natAbs_ne_zero.mpr hnum.ne'
  have hqn : ((q.num.natAbs : ℕ) : ℚ) = (q.num : ℚ) := by
    rw [Int.cast_natAbs, abs_of_pos hnum]
  have hq_eq : q = ((q.num.natAbs : ℕ) : ℚ) / ((q.den : ℕ) : ℚ) := by
    rw [hqn, Rat.num_div_den]
  have ha1 : (2:ℚ) ^ (Nat.log2 q.num.natAbs) ≤ ((q.num.natAbs : ℕ) : ℚ) := by
    exact_mod_cast Nat.log2_self_le hn1
  have ha2 : ((q.num.natAbs : ℕ) : ℚ) < (2:ℚ) ^ (Nat.log2 q.num.natAbs + 1) := by
    exact_mod_cast Nat.lt_log2_self
  have hb1 : (2:ℚ) ^ (Nat.log2 q.den) ≤ ((q.den : ℕ) : ℚ) := by
    exact_mod_cast Nat.log2_self_le q.den_nz
  have hb2 : ((q.den : ℕ) : ℚ) < (2:ℚ) ^ (Nat.log2 q.den + 1) := by
    exact_mod_cast Nat.lt_log2_self
  set a : ℤ := (Nat.log2 q.num.natAbs : ℤ) with hadef
  set b : ℤ := (Nat.log2 q.den : ℤ) with hbdef
  have hza : (2:ℚ) ^ a = (2:ℚ) ^ (Nat.log2 q.num.natAbs) := by
    rw [hadef, zpow_natCast]
  have hza1 : (2:ℚ) ^ (a + 1) = (2:ℚ) ^ (Nat.log2 q.num.natAbs + 1) := by
    rw [hadef, ← zpow_natCast]; norm_cast
  have hzb : (2:ℚ) ^ b = (2:ℚ) ^ (Nat.log2 q.den) := by
    rw [hbdef, zpow_natCast]
  have hzb1 : (2:ℚ) ^ (b + 1) = (2:ℚ) ^ (Nat.log2 q.den + 1) := by
    rw [hbdef, ← zpow_natCast]; norm_cast
  have hlower : (2:ℚ) ^ (a - b - 1) < q := by
    rw [hq_eq, lt_div_iff₀ hden]
    have e1 : (2:ℚ) ^ (a - b - 1) * (2:ℚ) ^ (b + 1) = (2:ℚ) ^ a := by
      rw [← zpow_add₀ (two_ne_zero)]; ring_nf
    calc (2:ℚ) ^ (a - b - 1) * ((q.den : ℕ) : ℚ)
        < (2:ℚ) ^ (a - b - 1) * (2:ℚ) ^ (b + 1) := by
          exact mul_lt_mul_of_pos_left (by rw [hzb1]; exact hb2) (zpow_pos (by norm_num) _)
      _ = (2:ℚ) ^ a := e1
      _ ≤ ((q.num.natAbs : ℕ) : ℚ) := by rw [hza]; exact ha1
  have hupper : q < (2:ℚ) ^ (a - b + 1) := by
    rw [hq_eq, div_lt_iff₀ hden]
    have e1 : (2:ℚ) ^ (a - b + 1) * (2:ℚ) ^ b = (2:ℚ) ^ (a + 1) := by
      rw [← zpow_add₀ (two_ne_zero)]; ring_nf
    calc ((q.num.natAbs : ℕ) : ℚ)
        < (2:ℚ) ^ (a + 1) := by rw [hza1]; exact ha2
      _ = (2:ℚ) ^ (a - b + 1) * (2:ℚ) ^ b := e1.symm
      _ ≤ (2:ℚ) ^ (a - b + 1) * ((q.den : ℕ) : ℚ) := by
          exact mul_le_mul_of_nonneg_left (by rw [hzb]; exact hb1) (zpow_pos (by norm_num) _).le
  simp only [floorLog2]
  split_ifs with h1 h2
  · exact absurd h1 (not_le.mpr (by
      have he : a - b - 1 + 2 = a - b + 1 := by ring
      rw [he]; exact hupper))
  · refine ⟨h2, ?_⟩
    have he : a - b - 1 + 1 + 1 = a - b + 1 := by ring
    rw [he]; exact hupper
  · exact ⟨hlower.le, not_le.mp h2⟩

/-- Certification of `rnd`: for positive `q` the rounded value differs from
`q` by at most `2 ^ (⌊log₂ q⌋ - 53)` — half an ulp, the accuracy of correct
round-to-nearest binary64 rounding. -/
theorem rnd_dist (q : ℚ) (hq : 0 < q) :
    |rnd q - q| ≤ (2:ℚ) ^ (floorLog2 q - 53) := by
  have h0 : ¬ q = 0 := hq.ne'
  have h1 : ¬ q < 0 := not_lt.mpr hq.le
  simp only [rnd, rndPos]
  rw [if_neg h0, if_neg h1]
  have hpow : (0:ℚ) < (2:ℚ) ^ (floorLog2 q - 52) := zpow_pos (by norm_num) _
  have hcancel : (2:ℚ) ^ (-(floorLog2 q - 52)) * (2:ℚ) ^ (floorLog2 q - 52) = 1 := by
    rw [← zpow_add₀ (two_ne_zero)]; ring_nf
  have key : (rne (q * (2:ℚ) ^ (-(floorLog2 q - 52))) : ℚ) * (2:ℚ) ^ (floorLog2 q - 52) - q
      = ((rne (q * (2:ℚ) ^ (-(floorLog2 q - 52))) : ℚ) - q * (2:ℚ) ^ (-(floorLog2 q - 52))) *
        (2:ℚ) ^ (floorLog2 q - 52) := by
    linear_combination q * hcancel
  rw [key, abs_mul, abs_of_pos hpow]
  have hd := rne_dist (q * (2:ℚ) ^ (-(floorLog2 q - 52)))
  have hle := mul_le_mul_of_nonneg_right hd hpow.le
  refine hle.trans (le_of_eq ?_)
  rw [show floorLog2 q - 53 = (-1) + (floorLog2 q - 52) by ring,
    zpow_add₀ (two_ne_zero), zpow_neg_one]
  norm_num

/-- Double-precision evaluation: `dateToJulianF` at 2000-01-01 00:00:01. -/
theorem dateToJulianF_sec1 :
    dateToJulianF ⟨2000, 1, 1, 0, 0, 1⟩ = (5264651726119191 : ℚ) / 2147483648 := by
  have afl0 : floorLog2 (1999 : ℚ) = 10 := by
    have na1 : ((1999 : ℤ)).natAbs = 1999 := rfl
    have lg1 : Nat.log2 1999 = 10 := by norm_num [Nat.log2]
    have lg2 : Nat.log2 1 = 0 := by norm_num [Nat.log2]
    norm_num [floorLog2, na1, lg1, lg2]
  have ahr0 : rne (8791694975696896 : ℚ) = 8791694975696896 := by norm_num [rne, qfloor]
  have ar0 : rnd (1999 : ℚ) = (1999 : ℚ) := by
    simp only [rnd, rndPos]
    norm_num [afl0, ahr0]
  have afl1 : floorLog2 (13 : ℚ) = 3 := by
    have na1 : ((13 : ℤ)).natAbs = 13 := rfl
    have lg1 : Nat.log2 13 = 3 := by norm_num [Nat.log2]
    have lg2 : Nat.log2 1 = 0 := by norm_num [Nat.log2]
    norm_num [floorLog2, na1, lg1, lg2]
  have ahr1 : rne (7318349394477056 : ℚ) = 7318349394477056 := by norm_num [rne, qfloor]
  have ar1 : rnd (13 : ℚ) = (13 : ℚ) := by
    simp only [rnd, rndPos]
    norm_num [afl1, ahr1]
  have afl2 : floorLog2 ((1999 : ℚ) / 100) = 4 := by
    have na1 : ((1999 : ℤ)).natAbs = 1999 := rfl
    have lg1 : Nat.log2 1999 = 10 := by norm_num [Nat.log2]
    have lg2 : Nat.log2 100 = 6 := by norm_num [Nat.log2]
    norm_num [floorLog2, na1, lg1, lg2]
  have ahr2 : rne ((140667119611150336 : ℚ) / 25) = 5626684784446013 := by norm_num [rne, qfloor]
  have ar2 : rnd ((1999 : ℚ) / 100) = ((5626684784446013 : ℚ) / 281474976710656) := by
    simp only [rnd, rndPos]
    norm_num [afl2, ahr2]
  have afl3 : floorLog2 (17 : ℚ) = 4 := by
    have na1 : ((17 : ℤ)).natAbs = 17 := rfl
    have lg1 : Nat.log2 17 = 4 := by norm_num [Nat.log2]
    have lg2 : Nat.log2 1 = 0 := by norm_num [Nat.log2]
    norm_num [floorLog2, na1, lg1, lg2]
  have ahr3 : rne (4785074604081152 : ℚ) = 4785074604081152 := by norm_num [rne, qfloor]
  have ar3 : rnd (-17 : ℚ) = (-17 : ℚ) := by
    simp only [rnd, rndPos]
    norm_num [afl3, ahr3]
  have afl4 : floorLog2 ((19 : ℚ) / 4) = 2 := by
    have na1 : ((19 : ℤ)).natAbs = 19 := rfl
    have lg1 : Nat.log2 19 = 4 := by norm_num [Nat.log2]
    have lg2 : Nat.log2 4 = 2 := by norm_num [Nat.log2]
    norm_num [floorLog2, na1, lg1, lg2]
  have ahr4 : rne (5348024557502464 : ℚ) = 5348024557502464 := by norm_num [rne, qfloor]
  have ar4 : rnd ((19 : ℚ) / 4) = ((19 : ℚ) / 4) := by
    simp only [rnd, rndPos]
    norm_num [afl4, ahr4]
  have afl5 : floorLog2 (13 : ℚ) = 3 := by
    have na1 : ((13 : ℤ)).natAbs = 13 := rfl
    have lg1 : Nat.log2 13 = 3 := by norm_num [Nat.log2]
    have lg2 : Nat.log2 1 = 0 := by norm_num [Nat.log2]
    norm_num [floorLog2, na1, lg1, lg2]
  have ahr5 : rne (7318349394477056 : ℚ) = 7318349394477056 := by norm_num [rne, qfloor]
  have ar5 : rnd (-13 : ℚ) = (-13 : ℚ) := by
    simp only [rnd, rndPos]
    norm_num [afl5, ahr5]
  have ar6 : rnd (0 : ℚ) = 0 := by norm_num [rnd]
  have afl7 : floorLog2 ((1 : ℚ) / 3600) = -12 := by
    have na1 : ((1 : ℤ)).natAbs = 1 := rfl
    have lg1 : Nat.log2 1 = 0 := by norm_num [Nat.log2]
    have lg2 : Nat.log2 3600 = 11 := by norm_num [Nat.log2]
    norm_num [floorLog2, na1, lg1, lg2]
  have ahr7 : rne ((1152921504606846976 : ℚ) / 225) = 5124095576030431 := by norm_num [rne, qfloor]
  have ar7 : rnd ((1 : ℚ) / 3600) = ((5124095576030431 : ℚ) / 18446744073709551616) := by
    simp only [rnd, rndPos]
    norm_num [afl7, ahr7]
  have afl8 : floorLog2 ((5124095576030431 : ℚ) / 18446744073709551616) = -12 := by
    have na1 : ((5124095576030431 : ℤ)).natAbs = 5124095576030431 := rfl
    have lg1 : Nat.log2 5124095576030431 = 52 := by norm_num [Nat.log2]
    have lg2 : Nat.log2 18446744073709551616 = 64 := by norm_num [Nat.log2]
    norm_num [floorLog2, na1, lg1, lg2]
  have ahr8 : rne (5124095576030431 : ℚ) = 5124095576030431 := by norm_num [rne, qfloor]
  have ar8 : rnd ((5124095576030431 : ℚ) / 18446744073709551616) = ((5124095576030431 : ℚ) / 18446744073709551616) := by
    simp only [rnd, rndPos]
    norm_num [afl8, ahr8]
  have afl9 : floorLog2 ((5124095576030431 : ℚ) / 442721857769029238784) = -17 := by
    have na1 : ((5124095576030431 : ℤ)).natAbs = 5124095576030431 := rfl
    have lg1 : Nat.log2 5124095576030431 = 52 := by norm_num [Nat.log2]
    have lg2 : Nat.log2 442721857769029238784 = 68 := by norm_num [Nat.log2]
    norm_num [floorLog2, na1, lg1, lg2]
  have ahr9 : rne ((20496382304121724 : ℚ) / 3) = 6832127434707241 := by norm_num [rne, qfloor]
  have ar9 : rnd ((5124095576030431 : ℚ) / 442721857769029238784) = ((6832127434707241 : ℚ) / 590295810358705651712) := by
    simp only [rnd, rndPos]
    norm_num [afl9, ahr9]
  have afl10 : floorLog2 ((1461 : ℚ) / 4) = 8 := by
    have na1 : ((1461 : ℤ)).natAbs = 1461 := rfl
    have lg1 : Nat.log2 1461 = 10 := by norm_num [Nat.log2]
    have lg2 : Nat.log2 4 = 2 := by norm_num [Nat.log2]
    norm_num [floorLog2, na1, lg1, lg2]
  have ahr10 : rne (6425545952722944 : ℚ) = 6425545952722944 := by norm_num [rne, qfloor]
  have ar10 : rnd ((1461 : ℚ) / 4) = ((1461 : ℚ) / 4) := by
    simp only [rnd, rndPos]
    norm_num [afl10, ahr10]
  have afl11 : floorLog2 (6715 : ℚ) = 12 := by
    have na1 : ((6715 : ℤ)).natAbs = 6715 := rfl
    have lg1 : Nat.log2 6715 = 12 := by norm_num [Nat.log2]
    have lg2 : Nat.log2 1 = 0 := by norm_num [Nat.log2]
    norm_num [floorLog2, na1, lg1, lg2]
  have ahr11 : rne (7383220580515840 : ℚ) = 7383220580515840 := by norm_num [rne, qfloor]
  have ar11 : rnd (6715 : ℚ) = (6715 : ℚ) := by
    simp only [rnd, rndPos]
    norm_num [afl11, ahr11]
  have afl12 : floorLog2 ((9810615 : ℚ) / 4) = 21 := by
    have na1 : ((9810615 : ℤ)).natAbs = 9810615 := rfl
    have lg1 : Nat.log2 9810615 = 23 := by norm_num [Nat.log2]
    have lg2 : Nat.log2 4 = 2 := by norm_num [Nat.log2]
    norm_num [floorLog2, na1, lg1, lg2]
  have ahr12 : rne (5267033822330880 : ℚ) = 5267033822330880 := by norm_num [rne, qfloor]
  have ar12 : rnd ((9810615 : ℚ) / 4) = ((9810615 : ℚ) / 4) := by
    simp only [rnd, rndPos]
    norm_num [afl12, ahr12]
  have afl13 : floorLog2 ((306001 : ℚ) / 10000) = 4 := by
    have na1 : ((306001 : ℤ)).natAbs = 306001 := rfl
    have lg1 : Nat.log2 306001 = 18 := by norm_num [Nat.log2]
    have lg2 : Nat.log2 10000 = 13 := by norm_num [Nat.log2]
    norm_num [floorLog2, na1, lg1, lg2]
  have ahr13 : rne ((5383226521777340416 : ℚ) / 625) = 8613162434843745 := by norm_num [rne, qfloor]
  have ar13 : rnd ((306001 : ℚ) / 10000) = ((8613162434843745 : ℚ) / 281474976710656) := by
    simp only [rnd, rndPos]
    norm_num [afl13, ahr13]
  have afl14 : floorLog2 (14 : ℚ) = 3 := by
    have na1 : ((14 : ℤ)).natAbs = 14 := rfl
    have lg1 : Nat.log2 14 = 3 := by norm_num [Nat.log2]
    have lg2 : Nat.log2 1 = 0 := by norm_num [Nat.log2]
    norm_num [floorLog2, na1, lg1, lg2]
  have ahr14 : rne (7881299347898368 : ℚ) = 7881299347898368 := by norm_num [rne, qfloor]
  have ar14 : rnd (14 : ℚ) = (14 : ℚ) := by
    simp only [rnd, rndPos]
    norm_num [afl14, ahr14]
  have afl15 : floorLog2 ((60292137043906215 : ℚ) / 140737488355328) = 8 := by
    have na1 : ((60292137043906215 : ℤ)).natAbs = 60292137043906215 := rfl
    have lg1 : Nat.log2 60292137043906215 = 55 := by norm_num [Nat.log2]
    have lg2 : Nat.log2 140737488355328 = 47 := by norm_num [Nat.log2]
    norm_num [floorLog2, na1, lg1, lg2]
  have ahr15 : rne ((60292137043906215 : ℚ) / 8) = 7536517130488277 := by norm_num [rne, qfloor]
  have ar15 : rnd ((60292137043906215 : ℚ) / 140737488355328) = ((7536517130488277 : ℚ) / 17592186044416) := by
    simp only [rnd, rndPos]
    norm_num [afl15, ahr15]
  have afl16 : floorLog2 (2453081 : ℚ) = 21 := by
    have na1 : ((2453081 : ℤ)).natAbs = 2453081 := rfl
    have lg1 : Nat.log2 2453081 = 21 := by norm_num [Nat.log2]
    have lg2 : Nat.log2 1 = 0 := by norm_num [Nat.log2]
    norm_num [floorLog2, na1, lg1, lg2]
  have ahr16 : rne (5267951334719488 : ℚ) = 5267951334719488 := by norm_num [rne, qfloor]
  have ar16 : rnd (2453081 : ℚ) = (2453081 : ℚ) := by
    simp only [rnd, rndPos]
    norm_num [afl16, ahr16]
  have afl17 : floorLog2 (2453082 : ℚ) = 21 := by
    have na1 : ((2453082 : ℤ)).natAbs = 2453082 := rfl
    have lg1 : Nat.log2 2453082 = 21 := by norm_num [Nat.log2]
    have lg2 : Nat.log2 1 = 0 := by norm_num [Nat.log2]
    norm_num [floorLog2, na1, lg1, lg2]
  have ahr17 : rne (5267953482203136 : ℚ) = 5267953482203136 := by norm_num [rne, qfloor]
  have ar17 : rnd (2453082 : ℚ) = (2453082 : ℚ) := by
    simp only [rnd, rndPos]
    norm_num [afl17, ahr17]
  have afl18 : floorLog2 (2453069 : ℚ) = 21 := by
    have na1 : ((2453069 : ℤ)).natAbs = 2453069 := rfl
    have lg1 : Nat.log2 2453069 = 21 := by norm_num [Nat.log2]
    have lg2 : Nat.log2 1 = 0 := by norm_num [Nat.log2]
    norm_num [floorLog2, na1, lg1, lg2]
  have ahr18 : rne (5267925564915712 : ℚ) = 5267925564915712 := by norm_num [rne, qfloor]
  have ar18 : rnd (2453069 : ℚ) = (2453069 : ℚ) := by
    simp only [rnd, rndPos]
    norm_num [afl18, ahr18]
  have afl19 : floorLog2 ((3049 : ℚ) / 2) = 10 := by
    have na1 : ((3049 : ℤ)).natAbs = 3049 := rfl
    have lg1 : Nat.log2 3049 = 11 := by norm_num [Nat.log2]
    have lg2 : Nat.log2 2 = 1 := by norm_num [Nat.log2]
    norm_num [floorLog2, na1, lg1, lg2]
  have ahr19 : rne (6704821906178048 : ℚ) = 6704821906178048 := by norm_num [rne, qfloor]
  have ar19 : rnd ((3049 : ℚ) / 2) = ((3049 : ℚ) / 2) := by
    simp only [rnd, rndPos]
    norm_num [afl19, ahr19]
  have afl20 : floorLog2 ((4903089 : ℚ) / 2) = 21 := by
    have na1 : ((4903089 : ℤ)).natAbs = 4903089 := rfl
    have lg1 : Nat.log2 4903089 = 22 := by norm_num [Nat.log2]
    have lg2 : Nat.log2 2 = 1 := by norm_num [Nat.log2]
    norm_num [floorLog2, na1, lg1, lg2]
  have ahr20 : rne (5264651726094336 : ℚ) = 5264651726094336 := by norm_num [rne, qfloor]
  have ar20 : rnd ((4903089 : ℚ) / 2) = ((4903089 : ℚ) / 2) := by
    simp only [rnd, rndPos]
    norm_num [afl20, ahr20]
  have afl21 : floorLog2 ((1447136447264759995008176425 : ℚ) / 590295810358705651712) = 21 := by
    have na1 : ((1447136447264759995008176425 : ℤ)).natAbs = 1447136447264759995008176425 := rfl
    have lg1 : Nat.log2 1447136447264759995008176425 = 90 := by norm_num [Nat.log2]
    have lg2 : Nat.log2 590295810358705651712 = 69 := by norm_num [Nat.log2]
    norm_num [floorLog2, na1, lg1, lg2]
  have ahr21 : rne ((1447136447264759995008176425 : ℚ) / 274877906944) = 5264651726119191 := by norm_num [rne, qfloor]
  have ar21 : rnd ((1447136447264759995008176425 : ℚ) / 590295810358705651712) = ((5264651726119191 : ℚ) / 2147483648) := by
    simp only [rnd, rndPos]
    norm_num [afl21, ahr21]
  simp only [dateToJulianF]
  norm_num [floorF, qfloor, ar0, ar1, ar2, ar3, ar4, ar5, ar6, ar7, ar8, ar9, ar10, ar11, ar12, ar13, ar14, ar15, ar16, ar17, ar18, ar19, ar20, ar21]

/-- Double-precision evaluation: `julianToDateF` drops the second. -/
theorem julianToDateF_sec1 :
    julianToDateF ((5264651726119191 : ℚ) / 2147483648) = .ok ⟨2000, 1, 1, 0, 0, 0⟩ := by
  have bfl0 : floorLog2 ((1 : ℚ) / 2) = -1 := by
    have na1 : ((1 : ℤ)).natAbs = 1 := rfl
    have lg1 : Nat.log2 1 = 0 := by norm_num [Nat.log2]
    have lg2 : Nat.log2 2 = 1 := by norm_num [Nat.log2]
    norm_num [floorLog2, na1, lg1, lg2]
  have bhr0 : rne (4503599627370496 : ℚ) = 4503599627370496 := by norm_num [rne, qfloor]
  have br0 : rnd ((1 : ℚ) / 2) = ((1 : ℚ) / 2) := by
    simp only [rnd, rndPos]
    norm_num [bfl0, bhr0]
  have bfl1 : floorLog2 ((5264652799861015 : ℚ) / 2147483648) = 21 := by
    have na1 : ((5264652799861015 : ℤ)).natAbs = 5264652799861015 := rfl
    have lg1 : Nat.log2 5264652799861015 = 52 := by norm_num [Nat.log2]
    have lg2 : Nat.log2 2147483648 = 31 := by norm_num [Nat.log2]
    norm_num [floorLog2, na1, lg1, lg2]
  have bhr1 : rne (5264652799861015 : ℚ) = 5264652799861015 := by norm_num [rne, qfloor]
  have br1 : rnd ((5264652799861015 : ℚ) / 2147483648) = ((5264652799861015 : ℚ) / 2147483648) := by
    simp only [rnd, rndPos]
    norm_num [bfl1, bhr1]
  have bfl2 : floorLog2 ((24855 : ℚ) / 2147483648) = -17 := by
    have na1 : ((24855 : ℤ)).natAbs = 24855 := rfl
    have lg1 : Nat.log2 24855 = 14 := by norm_num [Nat.log2]
    have lg2 : Nat.log2 2147483648 = 31 := by norm_num [Nat.log2]
    norm_num [floorLog2, na1, lg1, lg2]
  have bhr2 : rne (6832090377093120 : ℚ) = 6832090377093120 := by norm_num [rne, qfloor]
  have br2 : rnd ((24855 : ℚ) / 2147483648) = ((24855 : ℚ) / 2147483648) := by
    simp only [rnd, rndPos]
    norm_num [bfl2, bhr2]
  have bfl3 : floorLog2 ((7468865 : ℚ) / 4) = 20 := by
    have na1 : ((7468865 : ℤ)).natAbs = 7468865 := rfl
    have lg1 : Nat.log2 7468865 = 22 := by norm_num [Nat.log2]
    have lg2 : Nat.log2 4 = 2 := by norm_num [Nat.log2]
    norm_num [floorLog2, na1, lg1, lg2]
  have bhr3 : rne (8019632728309760 : ℚ) = 8019632728309760 := by norm_num [rne, qfloor]
  have br3 : rnd ((7468865 : ℚ) / 4) = ((7468865 : ℚ) / 4) := by
    simp only [rnd, rndPos]
    norm_num [bfl3, bhr3]
  have bfl4 : floorLog2 ((2337315 : ℚ) / 4) = 19 := by
    have na1 : ((2337315 : ℤ)).natAbs = 2337315 := rfl
    have lg1 : Nat.log2 2337315 = 21 := by norm_num [Nat.log2]
    have lg2 : Nat.log2 4 = 2 := by norm_num [Nat.log2]
    norm_num [floorLog2, na1, lg1, lg2]
  have bhr4 : rne (5019345742725120 : ℚ) = 5019345742725120 := by norm_num [rne, qfloor]
  have br4 : rnd ((2337315 : ℚ) / 4) = ((2337315 : ℚ) / 4) := by
    simp only [rnd, rndPos]
    norm_num [bfl4, bhr4]
  have bfl5 : floorLog2 ((146097 : ℚ) / 4) = 15 := by
    have na1 : ((146097 : ℤ)).natAbs = 146097 := rfl
    have lg1 : Nat.log2 146097 = 17 := by norm_num [Nat.log2]
    have lg2 : Nat.log2 4 = 2 := by norm_num [Nat.log2]
    norm_num [floorLog2, na1, lg1, lg2]
  have bhr5 : rne (5019854696349696 : ℚ) = 5019854696349696 := by norm_num [rne, qfloor]
  have br5 : rnd ((146097 : ℚ) / 4) = ((146097 : ℚ) / 4) := by
    simp only [rnd, rndPos]
    norm_num [bfl5, bhr5]
  have bfl6 : floorLog2 ((779105 : ℚ) / 48699) = 3 := by
    have na1 : ((779105 : ℤ)).natAbs = 779105 := rfl
    have lg1 : Nat.log2 779105 = 19 := by norm_num [Nat.log2]
    have lg2 : Nat.log2 48699 = 15 := by norm_num [Nat.log2]
    norm_num [floorLog2, na1, lg1, lg2]
  have bhr6 : rne ((438597123460311285760 : ℚ) / 48699) = 9006286031752424 := by norm_num [rne, qfloor]
  have br6 : rnd ((779105 : ℚ) / 48699) = ((1125785753969053 : ℚ) / 70368744177664) := by
    simp only [rnd, rndPos]
    norm_num [bfl6, bhr6]
  have bfl7 : floorLog2 (2451546 : ℚ) = 21 := by
    have na1 : ((2451546 : ℤ)).natAbs = 2451546 := rfl
    have lg1 : Nat.log2 2451546 = 21 := by norm_num [Nat.log2]
    have lg2 : Nat.log2 1 = 0 := by norm_num [Nat.log2]
    norm_num [floorLog2, na1, lg1, lg2]
  have bhr7 : rne (5264654947319808 : ℚ) = 5264654947319808 := by norm_num [rne, qfloor]
  have br7 : rnd (2451546 : ℚ) = (2451546 : ℚ) := by
    simp only [rnd, rndPos]
    norm_num [bfl7, bhr7]
  have bfl8 : floorLog2 (2451561 : ℚ) = 21 := by
    have na1 : ((2451561 : ℤ)).natAbs = 2451561 := rfl
    have lg1 : Nat.log2 2451561 = 21 := by norm_num [Nat.log2]
    have lg2 : Nat.log2 1 = 0 := by norm_num [Nat.log2]
    norm_num [floorLog2, na1, lg1, lg2]
  have bhr8 : rne (5264687159574528 : ℚ) = 5264687159574528 := by norm_num [rne, qfloor]
  have br8 : rnd (2451561 : ℚ) = (2451561 : ℚ) := by
    simp only [rnd, rndPos]
    norm_num [bfl8, bhr8]
  have bfl9 : floorLog2 ((15 : ℚ) / 4) = 1 := by
    have na1 : ((15 : ℤ)).natAbs = 15 := rfl
    have lg1 : Nat.log2 15 = 3 := by norm_num [Nat.log2]
    have lg2 : Nat.log2 4 = 2 := by norm_num [Nat.log2]
    norm_num [floorLog2, na1, lg1, lg2]
  have bhr9 : rne (8444249301319680 : ℚ) = 8444249301319680 := by norm_num [rne, qfloor]
  have br9 : rnd ((15 : ℚ) / 4) = ((15 : ℚ) / 4) := by
    simp only [rnd, rndPos]
    norm_num [bfl9, bhr9]
  have bfl10 : floorLog2 (2451558 : ℚ) = 21 := by
    have na1 : ((2451558 : ℤ)).natAbs = 2451558 := rfl
    have lg1 : Nat.log2 2451558 = 21 := by norm_num [Nat.log2]
    have lg2 : Nat.log2 1 = 0 := by norm_num [Nat.log2]
    norm_num [floorLog2, na1, lg1, lg2]
  have bhr10 : rne (5264680717123584 : ℚ) = 5264680717123584 := by norm_num [rne, qfloor]
  have br10 : rnd (2451558 : ℚ) = (2451558 : ℚ) := by
    simp only [rnd, rndPos]
    norm_num [bfl10, bhr10]
  have bfl11 : floorLog2 (2453082 : ℚ) = 21 := by
    have na1 : ((2453082 : ℤ)).natAbs = 2453082 := rfl
    have lg1 : Nat.log2 2453082 = 21 := by norm_num [Nat.log2]
    have lg2 : Nat.log2 1 = 0 := by norm_num [Nat.log2]
    norm_num [floorLog2, na1, lg1, lg2]
  have bhr11 : rne (5267953482203136 : ℚ) = 5267953482203136 := by norm_num [rne, qfloor]
  have br11 : rnd (2453082 : ℚ) = (2453082 : ℚ) := by
    simp only [rnd, rndPos]
    norm_num [bfl11, bhr11]
  have bfl12 : floorLog2 ((1221 : ℚ) / 10) = 6 := by
    have na1 : ((1221 : ℤ)).natAbs = 1221 := rfl
    have lg1 : Nat.log2 1221 = 10 := by norm_num [Nat.log2]
    have lg2 : Nat.log2 10 = 3 := by norm_num [Nat.log2]
    norm_num [floorLog2, na1, lg1, lg2]
  have bhr12 : rne ((42960118320463872 : ℚ) / 5) = 8592023664092774 := by norm_num [rne, qfloor]
  have br12 : rnd ((1221 : ℚ) / 10) = ((4296011832046387 : ℚ) / 35184372088832) := by
    simp only [rnd, rndPos]
    norm_num [bfl12, bhr12]
  have bfl13 : floorLog2 ((86305853840584133837 : ℚ) / 35184372088832) = 21 := by
    have na1 : ((86305853840584133837 : ℤ)).natAbs = 86305853840584133837 := rfl
    have lg1 : Nat.log2 86305853840584133837 = 66 := by norm_num [Nat.log2]
    have lg2 : Nat.log2 35184372088832 = 45 := by norm_num [Nat.log2]
    norm_num [floorLog2, na1, lg1, lg2]
  have bhr13 : rne ((86305853840584133837 : ℚ) / 16384) = 5267691274449715 := by norm_num [rne, qfloor]
  have br13 : rnd ((86305853840584133837 : ℚ) / 35184372088832) = ((5267691274449715 : ℚ) / 2147483648) := by
    simp only [rnd, rndPos]
    norm_num [bfl13, bhr13]
  have bfl14 : floorLog2 ((1461 : ℚ) / 4) = 8 := by
    have na1 : ((1461 : ℤ)).natAbs = 1461 := rfl
    have lg1 : Nat.log2 1461 = 10 := by norm_num [Nat.log2]
    have lg2 : Nat.log2 4 = 2 := by norm_num [Nat.log2]
    norm_num [floorLog2, na1, lg1, lg2]
  have bhr14 : rne (6425545952722944 : ℚ) = 6425545952722944 := by norm_num [rne, qfloor]
  have br14 : rnd ((1461 : ℚ) / 4) = ((1461 : ℚ) / 4) := by
    simp only [rnd, rndPos]
    norm_num [bfl14, bhr14]
  have bfl15 : floorLog2 ((5267691274449715 : ℚ) / 784368402432) = 12 := by
    have na1 : ((5267691274449715 : ℤ)).natAbs = 5267691274449715 := rfl
    have lg1 : Nat.log2 5267691274449715 = 52 := by norm_num [Nat.log2]
    have lg2 : Nat.log2 784368402432 = 39 := by norm_num [Nat.log2]
    norm_num [floorLog2, na1, lg1, lg2]
  have bhr15 : rne ((10788231730073016320 : ℚ) / 1461) = 7384142183485980 := by norm_num [rne, qfloor]
  have br15 : rnd ((5267691274449715 : ℚ) / 784368402432) = ((1846035545871495 : ℚ) / 274877906944) := by
    simp only [rnd, rndPos]
    norm_num [bfl15, bhr15]
  have bfl16 : floorLog2 ((9810615 : ℚ) / 4) = 21 := by
    have na1 : ((9810615 : ℤ)).natAbs = 9810615 := rfl
    have lg1 : Nat.log2 9810615 = 23 := by norm_num [Nat.log2]
    have lg2 : Nat.log2 4 = 2 := by norm_num [Nat.log2]
    norm_num [floorLog2, na1, lg1, lg2]
  have bhr16 : rne (5267033822330880 : ℚ) = 5267033822330880 := by norm_num [rne, qfloor]
  have br16 : rnd ((9810615 : ℚ) / 4) = ((9810615 : ℚ) / 4) := by
    simp only [rnd, rndPos]
    norm_num [bfl16, bhr16]
  have bfl17 : floorLog2 (429 : ℚ) = 8 := by
    have na1 : ((429 : ℤ)).natAbs = 429 := rfl
    have lg1 : Nat.log2 429 = 8 := by norm_num [Nat.log2]
    have lg2 : Nat.log2 1 = 0 := by norm_num [Nat.log2]
    norm_num [floorLog2, na1, lg1, lg2]
  have bhr17 : rne (7547047813054464 : ℚ) = 7547047813054464 := by norm_num [rne, qfloor]
  have br17 : rnd (429 : ℚ) = (429 : ℚ) := by
    simp only [rnd, rndPos]
    norm_num [bfl17, bhr17]
  have bfl18 : floorLog2 ((306001 : ℚ) / 10000) = 4 := by
    have na1 : ((306001 : ℤ)).natAbs = 306001 := rfl
    have lg1 : Nat.log2 306001 = 18 := by norm_num [Nat.log2]
    have lg2 : Nat.log2 10000 = 13 := by norm_num [Nat.log2]
    norm_num [floorLog2, na1, lg1, lg2]
  have bhr18 : rne ((5383226521777340416 : ℚ) / 625) = 8613162434843745 := by norm_num [rne, qfloor]
  have br18 : rnd ((306001 : ℚ) / 10000) = ((8613162434843745 : ℚ) / 281474976710656) := by
    simp only [rnd, rndPos]
    norm_num [bfl18, bhr18]
  have bfl19 : floorLog2 ((40250921669623808 : ℚ) / 2871054144947915) = 3 := by
    have na1 : ((40250921669623808 : ℤ)).natAbs = 40250921669623808 := rfl
    have lg1 : Nat.log2 40250921669623808 = 55 := by norm_num [Nat.log2]
    have lg2 : Nat.log2 2871054144947915 = 51 := by norm_num [Nat.log2]
    norm_num [floorLog2, na1, lg1, lg2]
  have bhr19 : rne ((22659254479079600551753569796096 : ℚ) / 2871054144947915) = 7892311790410582 := by norm_num [rne, qfloor]
  have br19 : rnd ((40250921669623808 : ℚ) / 2871054144947915) = ((3946155895205291 : ℚ) / 281474976710656) := by
    simp only [rnd, rndPos]
    norm_num [bfl19, bhr19]
  have bfl20 : floorLog2 ((60292137043906215 : ℚ) / 140737488355328) = 8 := by
    have na1 : ((60292137043906215 : ℤ)).natAbs = 60292137043906215 := rfl
    have lg1 : Nat.log2 60292137043906215 = 55 := by norm_num [Nat.log2]
    have lg2 : Nat.log2 140737488355328 = 47 := by norm_num [Nat.log2]
    norm_num [floorLog2, na1, lg1, lg2]
  have bhr20 : rne ((60292137043906215 : ℚ) / 8) = 7536517130488277 := by norm_num [rne, qfloor]
  have br20 : rnd ((60292137043906215 : ℚ) / 140737488355328) = ((7536517130488277 : ℚ) / 17592186044416) := by
    simp only [rnd, rndPos]
    norm_num [bfl20, bhr20]
  have bfl21 : floorLog2 (1 : ℚ) = 0 := by
    have na1 : ((1 : ℤ)).natAbs = 1 := rfl
    have lg1 : Nat.log2 1 = 0 := by norm_num [Nat.log2]
    have lg2 : Nat.log2 1 = 0 := by norm_num [Nat.log2]
    norm_num [floorLog2, na1, lg1, lg2]
  have bhr21 : rne (4503599627370496 : ℚ) = 4503599627370496 := by norm_num [rne, qfloor]
  have br21 : rnd (1 : ℚ) = (1 : ℚ) := by
    simp only [rnd, rndPos]
    norm_num [bfl21, bhr21]
  have bfl22 : floorLog2 (2000 : ℚ) = 10 := by
    have na1 : ((2000 : ℤ)).natAbs = 2000 := rfl
    have lg1 : Nat.log2 2000 = 10 := by norm_num [Nat.log2]
    have lg2 : Nat.log2 1 = 0 := by norm_num [Nat.log2]
    norm_num [floorLog2, na1, lg1, lg2]
  have bhr22 : rne (8796093022208000 : ℚ) = 8796093022208000 := by norm_num [rne, qfloor]
  have br22 : rnd (2000 : ℚ) = (2000 : ℚ) := by
    simp only [rnd, rndPos]
    norm_num [bfl22, bhr22]
  have bfl23 : floorLog2 ((74565 : ℚ) / 268435456) = -12 := by
    have na1 : ((74565 : ℤ)).natAbs = 74565 := rfl
    have lg1 : Nat.log2 74565 = 16 := by norm_num [Nat.log2]
    have lg2 : Nat.log2 268435456 = 28 := by norm_num [Nat.log2]
    norm_num [floorLog2, na1, lg1, lg2]
  have bhr23 : rne (5124067782819840 : ℚ) = 5124067782819840 := by norm_num [rne, qfloor]
  have br23 : rnd ((74565 : ℚ) / 268435456) = ((74565 : ℚ) / 268435456) := by
    simp only [rnd, rndPos]
    norm_num [bfl23, bhr23]
  have bfl24 : floorLog2 ((1118475 : ℚ) / 67108864) = -6 := by
    have na1 : ((1118475 : ℤ)).natAbs = 1118475 := rfl
    have lg1 : Nat.log2 1118475 = 20 := by norm_num [Nat.log2]
    have lg2 : Nat.log2 67108864 = 26 := by norm_num [Nat.log2]
    norm_num [floorLog2, na1, lg1, lg2]
  have bhr24 : rne (4803813546393600 : ℚ) = 4803813546393600 := by norm_num [rne, qfloor]
  have br24 : rnd ((1118475 : ℚ) / 67108864) = ((1118475 : ℚ) / 67108864) := by
    simp only [rnd, rndPos]
    norm_num [bfl24, bhr24]
  have bfl25 : floorLog2 ((16777125 : ℚ) / 16777216) = -1 := by
    have na1 : ((16777125 : ℤ)).natAbs = 16777125 := rfl
    have lg1 : Nat.log2 16777125 = 23 := by norm_num [Nat.log2]
    have lg2 : Nat.log2 16777216 = 24 := by norm_num [Nat.log2]
    norm_num [floorLog2, na1, lg1, lg2]
  have bhr25 : rne (9007150399488000 : ℚ) = 9007150399488000 := by norm_num [rne, qfloor]
  have br25 : rnd ((16777125 : ℚ) / 16777216) = ((16777125 : ℚ) / 16777216) := by
    simp only [rnd, rndPos]
    norm_num [bfl25, bhr25]
  simp only [julianToDateF]
  norm_num [floorF, qfloor, MIN_JULIAN_DATE, MAX_JULIAN_DATE, br0, br1, br2, br3, br4, br5, br6, br7, br8, br9, br10, br11, br12, br13, br14, br15, br16, br17, br18, br19, br20, br21, br22, br23, br24, br25]

/-- Double-precision evaluation: `dateToJulianF` at 2000-01-01 01:00:00. -/
theorem dateToJulianF_hour1 :
    dateToJulianF ⟨2000, 1, 1, 1, 0, 0⟩ = ((5264651815572821 : ℚ) / 2147483648) := by
  have cfl0 : floorLog2 (1999 : ℚ) = 10 := by
    have na1 : ((1999 : ℤ)).natAbs = 1999 := rfl
    have lg1 : Nat.log2 1999 = 10 := by norm_num [Nat.log2]
    have lg2 : Nat.log2 1 = 0 := by norm_num [Nat.log2]
    norm_num [floorLog2, na1, lg1, lg2]
  have chr0 : rne (8791694975696896 : ℚ) = 8791694975696896 := by norm_num [rne, qfloor]
  have cr0 : rnd (1999 : ℚ) = (1999 : ℚ) := by
    simp only [rnd, rndPos]
    norm_num [cfl0, chr0]
  have cfl1 : floorLog2 (13 : ℚ) = 3 := by
    have na1 : ((13 : ℤ)).natAbs = 13 := rfl
    have lg1 : Nat.log2 13 = 3 := by norm_num [Nat.log2]
    have lg2 : Nat.log2 1 = 0 := by norm_num [Nat.log2]
    norm_num [floorLog2, na1, lg1, lg2]
  have chr1 : rne (7318349394477056 : ℚ) = 7318349394477056 := by norm_num [rne, qfloor]
  have cr1 : rnd (13 : ℚ) = (13 : ℚ) := by
    simp only [rnd, rndPos]
    norm_num [cfl1, chr1]
  have cfl2 : floorLog2 ((1999 : ℚ) / 100) = 4 := by
    have na1 : ((1999 : ℤ)).natAbs = 1999 := rfl
    have lg1 : Nat.log2 1999 = 10 := by norm_num [Nat.log2]
    have lg2 : Nat.log2 100 = 6 := by norm_num [Nat.log2]
    norm_num [floorLog2, na1, lg1, lg2]
  have chr2 : rne ((140667119611150336 : ℚ) / 25) = 5626684784446013 := by norm_num [rne, qfloor]
  have cr2 : rnd ((1999 : ℚ) / 100) = ((5626684784446013 : ℚ) / 281474976710656) := by
    simp only [rnd, rndPos]
    norm_num [cfl2, chr2]
  have cfl3 : floorLog2 (17 : ℚ) = 4 := by
    have na1 : ((17 : ℤ)).natAbs = 17 := rfl
    have lg1 : Nat.log2 17 = 4 := by norm_num [Nat.log2]
    have lg2 : Nat.log2 1 = 0 := by norm_num [Nat.log2]
    norm_num [floorLog2, na1, lg1, lg2]
  have chr3 : rne (4785074604081152 : ℚ) = 4785074604081152 := by norm_num [rne, qfloor]
  have cr3 : rnd (-17 : ℚ) = (-17 : ℚ) := by
    simp only [rnd, rndPos]
    norm_num [cfl3, chr3]
  have cfl4 : floorLog2 ((19 : ℚ) / 4) = 2 := by
    have na1 : ((19 : ℤ)).natAbs = 19 := rfl
    have lg1 : Nat.log2 19 = 4 := by norm_num [Nat.log2]
    have lg2 : Nat.log2 4 = 2 := by norm_num [Nat.log2]
    norm_num [floorLog2, na1, lg1, lg2]
  have chr4 : rne (5348024557502464 : ℚ) = 5348024557502464 := by norm_num [rne, qfloor]
  have cr4 : rnd ((19 : ℚ) / 4) = ((19 : ℚ) / 4) := by
    simp only [rnd, rndPos]
    norm_num [cfl4, chr4]
  have cfl5 : floorLog2 (13 : ℚ) = 3 := by
    have na1 : ((13 : ℤ)).natAbs = 13 := rfl
    have lg1 : Nat.log2 13 = 3 := by norm_num [Nat.log2]
    have lg2 : Nat.log2 1 = 0 := by norm_num [Nat.log2]
    norm_num [floorLog2, na1, lg1, lg2]
  have chr5 : rne (7318349394477056 : ℚ) = 7318349394477056 := by norm_num [rne, qfloor]
  have cr5 : rnd (-13 : ℚ) = (-13 : ℚ) := by
    simp only [rnd, rndPos]
    norm_num [cfl5, chr5]
  have cr6 : rnd (0 : ℚ) = 0 := by norm_num [rnd]
  have cfl7 : floorLog2 (1 : ℚ) = 0 := by
    have na1 : ((1 : ℤ)).natAbs = 1 := rfl
    have lg1 : Nat.log2 1 = 0 := by norm_num [Nat.log2]
    have lg2 : Nat.log2 1 = 0 := by norm_num [Nat.log2]
    norm_num [floorLog2, na1, lg1, lg2]
  have chr7 : rne (4503599627370496 : ℚ) = 4503599627370496 := by norm_num [rne, qfloor]
  have cr7 : rnd (1 : ℚ) = (1 : ℚ) := by
    simp only [rnd, rndPos]
    norm_num [cfl7, chr7]
  have cfl8 : floorLog2 ((1 : ℚ) / 24) = -5 := by
    have na1 : ((1 : ℤ)).natAbs = 1 := rfl
    have lg1 : Nat.log2 1 = 0 := by norm_num [Nat.log2]
    have lg2 : Nat.log2 24 = 4 := by norm_num [Nat.log2]
    norm_num [floorLog2, na1, lg1, lg2]
  have chr8 : rne ((18014398509481984 : ℚ) / 3) = 6004799503160661 := by norm_num [rne, qfloor]
  have cr8 : rnd ((1 : ℚ) / 24) = ((6004799503160661 : ℚ) / 144115188075855872) := by
    simp only [rnd, rndPos]
    norm_num [cfl8, chr8]
  have cfl9 : floorLog2 ((1461 : ℚ) / 4) = 8 := by
    have na1 : ((1461 : ℤ)).natAbs = 1461 := rfl
    have lg1 : Nat.log2 1461 = 10 := by norm_num [Nat.log2]
    have lg2 : Nat.log2 4 = 2 := by norm_num [Nat.log2]
    norm_num [floorLog2, na1, lg1, lg2]
  have chr9 : rne (6425545952722944 : ℚ) = 6425545952722944 := by norm_num [rne, qfloor]
  have cr9 : rnd ((1461 : ℚ) / 4) = ((1461 : ℚ) / 4) := by
    simp only [rnd, rndPos]
    norm_num [cfl9, chr9]
  have cfl10 : floorLog2 (6715 : ℚ) = 12 := by
    have na1 : ((6715 : ℤ)).natAbs = 6715 := rfl
    have lg1 : Nat.log2 6715 = 12 := by norm_num [Nat.log2]
    have lg2 : Nat.log2 1 = 0 := by norm_num [Nat.log2]
    norm_num [floorLog2, na1, lg1, lg2]
  have chr10 : rne (7383220580515840 : ℚ) = 7383220580515840 := by norm_num [rne, qfloor]
  have cr10 : rnd (6715 : ℚ) = (6715 : ℚ) := by
    simp only [rnd, rndPos]
    norm_num [cfl10, chr10]
  have cfl11 : floorLog2 ((9810615 : ℚ) / 4) = 21 := by
    have na1 : ((9810615 : ℤ)).natAbs = 9810615 := rfl
    have lg1 : Nat.log2 9810615 = 23 := by norm_num [Nat.log2]
    have lg2 : Nat.log2 4 = 2 := by norm_num [Nat.log2]
    norm_num [floorLog2, na1, lg1, lg2]
  have chr11 : rne (5267033822330880 : ℚ) = 5267033822330880 := by norm_num [rne, qfloor]
  have cr11 : rnd ((9810615 : ℚ) / 4) = ((9810615 : ℚ) / 4) := by
    simp only [rnd, rndPos]
    norm_num [cfl11, chr11]
  have cfl12 : floorLog2 ((306001 : ℚ) / 10000) = 4 := by
    have na1 : ((306001 : ℤ)).natAbs = 306001 := rfl
    have lg1 : Nat.log2 306001 = 18 := by norm_num [Nat.log2]
    have lg2 : Nat.log2 10000 = 13 := by norm_num [Nat.log2]
    norm_num [floorLog2, na1, lg1, lg2]
  have chr12 : rne ((5383226521777340416 : ℚ) / 625) = 8613162434843745 := by norm_num [rne, qfloor]
  have cr12 : rnd ((306001 : ℚ) / 10000) = ((8613162434843745 : ℚ) / 281474976710656) := by
    simp only [rnd, rndPos]
    norm_num [cfl12, chr12]
  have cfl13 : floorLog2 (14 : ℚ) = 3 := by
    have na1 : ((14 : ℤ)).natAbs = 14 := rfl
    have lg1 : Nat.log2 14 = 3 := by norm_num [Nat.log2]
    have lg2 : Nat.log2 1 = 0 := by norm_num [Nat.log2]
    norm_num [floorLog2, na1, lg1, lg2]
  have chr13 : rne (7881299347898368 : ℚ) = 7881299347898368 := by norm_num [rne, qfloor]
  have cr13 : rnd (14 : ℚ) = (14 : ℚ) := by
    simp only [rnd, rndPos]
    norm_num [cfl13, chr13]
  have cfl14 : floorLog2 ((60292137043906215 : ℚ) / 140737488355328) = 8 := by
    have na1 : ((60292137043906215 : ℤ)).natAbs = 60292137043906215 := rfl
    have lg1 : Nat.log2 60292137043906215 = 55 := by norm_num [Nat.log2]
    have lg2 : Nat.log2 140737488355328 = 47 := by norm_num [Nat.log2]
    norm_num [floorLog2, na1, lg1, lg2]
  have chr14 : rne ((60292137043906215 : ℚ) / 8) = 7536517130488277 := by norm_num [rne, qfloor]
  have cr14 : rnd ((60292137043906215 : ℚ) / 140737488355328) = ((7536517130488277 : ℚ) / 17592186044416) := by
    simp only [rnd, rndPos]
    norm_num [cfl14, chr14]
  have cfl15 : floorLog2 (2453081 : ℚ) = 21 := by
    have na1 : ((2453081 : ℤ)).natAbs = 2453081 := rfl
    have lg1 : Nat.log2 2453081 = 21 := by norm_num [Nat.log2]
    have lg2 : Nat.log2 1 = 0 := by norm_num [Nat.log2]
    norm_num [floorLog2, na1, lg1, lg2]
  have chr15 : rne (5267951334719488 : ℚ) = 5267951334719488 := by norm_num [rne, qfloor]
  have cr15 : rnd (2453081 : ℚ) = (2453081 : ℚ) := by
    simp only [rnd, rndPos]
    norm_num [cfl15, chr15]
  have cfl16 : floorLog2 (2453082 : ℚ) = 21 := by
    have na1 : ((2453082 : ℤ)).natAbs = 2453082 := rfl
    have lg1 : Nat.log2 2453082 = 21 := by norm_num [Nat.log2]
    have lg2 : Nat.log2 1 = 0 := by norm_num [Nat.log2]
    norm_num [floorLog2, na1, lg1, lg2]
  have chr16 : rne (5267953482203136 : ℚ) = 5267953482203136 := by norm_num [rne, qfloor]
  have cr16 : rnd (2453082 : ℚ) = (2453082 : ℚ) := by
    simp only [rnd, rndPos]
    norm_num [cfl16, chr16]
  have cfl17 : floorLog2 (2453069 : ℚ) = 21 := by
    have na1 : ((2453069 : ℤ)).natAbs = 2453069 := rfl
    have lg1 : Nat.log2 2453069 = 21 := by norm_num [Nat.log2]
    have lg2 : Nat.log2 1 = 0 := by norm_num [Nat.log2]
    norm_num [floorLog2, na1, lg1, lg2]
  have chr17 : rne (5267925564915712 : ℚ) = 5267925564915712 := by norm_num [rne, qfloor]
  have cr17 : rnd (2453069 : ℚ) = (2453069 : ℚ) := by
    simp only [rnd, rndPos]
    norm_num [cfl17, chr17]
  have cfl18 : floorLog2 ((3049 : ℚ) / 2) = 10 := by
    have na1 : ((3049 : ℤ)).natAbs = 3049 := rfl
    have lg1 : Nat.log2 3049 = 11 := by norm_num [Nat.log2]
    have lg2 : Nat.log2 2 = 1 := by norm_num [Nat.log2]
    norm_num [floorLog2, na1, lg1, lg2]
  have chr18 : rne (6704821906178048 : ℚ) = 6704821906178048 := by norm_num [rne, qfloor]
  have cr18 : rnd ((3049 : ℚ) / 2) = ((3049 : ℚ) / 2) := by
    simp only [rnd, rndPos]
    norm_num [cfl18, chr18]
  have cfl19 : floorLog2 ((4903089 : ℚ) / 2) = 21 := by
    have na1 : ((4903089 : ℤ)).natAbs = 4903089 := rfl
    have lg1 : Nat.log2 4903089 = 22 := by norm_num [Nat.log2]
    have lg2 : Nat.log2 2 = 1 := by norm_num [Nat.log2]
    norm_num [floorLog2, na1, lg1, lg2]
  have chr19 : rne (5264651726094336 : ℚ) = 5264651726094336 := by norm_num [rne, qfloor]
  have cr19 : rnd ((4903089 : ℚ) / 2) = ((4903089 : ℚ) / 2) := by
    simp only [rnd, rndPos]
    norm_num [cfl19, chr19]
  have cfl20 : floorLog2 ((353304802698629548954965 : ℚ) / 144115188075855872) = 21 := by
    have na1 : ((353304802698629548954965 : ℤ)).natAbs = 353304802698629548954965 := rfl
    have lg1 : Nat.log2 353304802698629548954965 = 78 := by norm_num [Nat.log2]
    have lg2 : Nat.log2 144115188075855872 = 57 := by norm_num [Nat.log2]
    norm_num [floorLog2, na1, lg1, lg2]
  have chr20 : rne ((353304802698629548954965 : ℚ) / 67108864) = 5264651815572821 := by norm_num [rne, qfloor]
  have cr20 : rnd ((353304802698629548954965 : ℚ) / 144115188075855872) = ((5264651815572821 : ℚ) / 2147483648) := by
    simp only [rnd, rndPos]
    norm_num [cfl20, chr20]
  simp only [dateToJulianF]
  norm_num [floorF, qfloor, cr0, cr1, cr2, cr3, cr4, cr5, cr6, cr7, cr8, cr9, cr10, cr11, cr12, cr13, cr14, cr15, cr16, cr17, cr18, cr19, cr20]

/-- Double-precision evaluation: one second before the hour comes back. -/
theorem julianToDateF_hour1 :
    julianToDateF ((5264651815572821 : ℚ) / 2147483648) = .ok ⟨2000, 1, 1, 0, 59, 59⟩ := by
  have dfl0 : floorLog2 ((1 : ℚ) / 2) = -1 := by
    have na1 : ((1 : ℤ)).natAbs = 1 := rfl
    have lg1 : Nat.log2 1 = 0 := by norm_num [Nat.log2]
    have lg2 : Nat.log2 2 = 1 := by norm_num [Nat.log2]
    norm_num [floorLog2, na1, lg1, lg2]
  have dhr0 : rne (4503599627370496 : ℚ) = 4503599627370496 := by norm_num [rne, qfloor]
  have dr0 : rnd ((1 : ℚ) / 2) = ((1 : ℚ) / 2) := by
    simp only [rnd, rndPos]
    norm_num [dfl0, dhr0]
  have dfl1 : floorLog2 ((5264652889314645 : ℚ) / 2147483648) = 21 := by
    have na1 : ((5264652889314645 : ℤ)).natAbs = 5264652889314645 := rfl
    have lg1 : Nat.log2 5264652889314645 = 52 := by norm_num [Nat.log2]
    have lg2 : Nat.log2 2147483648 = 31 := by norm_num [Nat.log2]
    norm_num [floorLog2, na1, lg1, lg2]
  have dhr1 : rne (5264652889314645 : ℚ) = 5264652889314645 := by norm_num [rne, qfloor]
  have dr1 : rnd ((5264652889314645 : ℚ) / 2147483648) = ((5264652889314645 : ℚ) / 2147483648) := by
    simp only [rnd, rndPos]
    norm_num [dfl1, dhr1]
  have dfl2 : floorLog2 ((89478485 : ℚ) / 2147483648) = -5 := by
    have na1 : ((89478485 : ℤ)).natAbs = 89478485 := rfl
    have lg1 : Nat.log2 89478485 = 26 := by norm_num [Nat.log2]
    have lg2 : Nat.log2 2147483648 = 31 := by norm_num [Nat.log2]
    norm_num [floorLog2, na1, lg1, lg2]
  have dhr2 : rne (6004799480791040 : ℚ) = 6004799480791040 := by norm_num [rne, qfloor]
  have dr2 : rnd ((89478485 : ℚ) / 2147483648) = ((89478485 : ℚ) / 2147483648) := by
    simp only [rnd, rndPos]
    norm_num [dfl2, dhr2]
  have dfl3 : floorLog2 ((7468865 : ℚ) / 4) = 20 := by
    have na1 : ((7468865 : ℤ)).natAbs = 7468865 := rfl
    have lg1 : Nat.log2 7468865 = 22 := by norm_num [Nat.log2]
    have lg2 : Nat.log2 4 = 2 := by norm_num [Nat.log2]
    norm_num [floorLog2, na1, lg1, lg2]
  have dhr3 : rne (8019632728309760 : ℚ) = 8019632728309760 := by norm_num [rne, qfloor]
  have dr3 : rnd ((7468865 : ℚ) / 4) = ((7468865 : ℚ) / 4) := by
    simp only [rnd, rndPos]
    norm_num [dfl3, dhr3]
  have dfl4 : floorLog2 ((2337315 : ℚ) / 4) = 19 := by
    have na1 : ((2337315 : ℤ)).natAbs = 2337315 := rfl
    have lg1 : Nat.log2 2337315 = 21 := by norm_num [Nat.log2]
    have lg2 : Nat.log2 4 = 2 := by norm_num [Nat.log2]
    norm_num [floorLog2, na1, lg1, lg2]
  have dhr4 : rne (5019345742725120 : ℚ) = 5019345742725120 := by norm_num [rne, qfloor]
  have dr4 : rnd ((2337315 : ℚ) / 4) = ((2337315 : ℚ) / 4) := by
    simp only [rnd, rndPos]
    norm_num [dfl4, dhr4]
  have dfl5 : floorLog2 ((146097 : ℚ) / 4) = 15 := by
    have na1 : ((146097 : ℤ)).natAbs = 146097 := rfl
    have lg1 : Nat.log2 146097 = 17 := by norm_num [Nat.log2]
    have lg2 : Nat.log2 4 = 2 := by norm_num [Nat.log2]
    norm_num [floorLog2, na1, lg1, lg2]
  have dhr5 : rne (5019854696349696 : ℚ) = 5019854696349696 := by norm_num [rne, qfloor]
  have dr5 : rnd ((146097 : ℚ) / 4) = ((146097 : ℚ) / 4) := by
    simp only [rnd, rndPos]
    norm_num [dfl5, dhr5]
  have dfl6 : floorLog2 ((779105 : ℚ) / 48699) = 3 := by
    have na1 : ((779105 : ℤ)).natAbs = 779105 := rfl
    have lg1 : Nat.log2 779105 = 19 := by norm_num [Nat.log2]
    have lg2 : Nat.log2 48699 = 15 := by norm_num [Nat.log2]
    norm_num [floorLog2, na1, lg1, lg2]
  have dhr6 : rne ((438597123460311285760 : ℚ) / 48699) = 9006286031752424 := by norm_num [rne, qfloor]
  have dr6 : rnd ((779105 : ℚ) / 48699) = ((1125785753969053 : ℚ) / 70368744177664) := by
    simp only [rnd, rndPos]
    norm_num [dfl6, dhr6]
  have dfl7 : floorLog2 (2451546 : ℚ) = 21 := by
    have na1 : ((2451546 : ℤ)).natAbs = 2451546 := rfl
    have lg1 : Nat.log2 2451546 = 21 := by norm_num [Nat.log2]
    have lg2 : Nat.log2 1 = 0 := by norm_num [Nat.log2]
    norm_num [floorLog2, na1, lg1, lg2]
  have dhr7 : rne (5264654947319808 : ℚ) = 5264654947319808 := by norm_num [rne, qfloor]
  have dr7 : rnd (2451546 : ℚ) = (2451546 : ℚ) := by
    simp only [rnd, rndPos]
    norm_num [dfl7, dhr7]
  have dfl8 : floorLog2 (2451561 : ℚ) = 21 := by
    have na1 : ((2451561 : ℤ)).natAbs = 2451561 := rfl
    have lg1 : Nat.log2 2451561 = 21 := by norm_num [Nat.log2]
    have lg2 : Nat.log2 1 = 0 := by norm_num [Nat.log2]
    norm_num [floorLog2, na1, lg1, lg2]
  have dhr8 : rne (5264687159574528 : ℚ) = 5264687159574528 := by norm_num [rne, qfloor]
  have dr8 : rnd (2451561 : ℚ) = (2451561 : ℚ) := by
    simp only [rnd, rndPos]
    norm_num [dfl8, dhr8]
  have dfl9 : floorLog2 ((15 : ℚ) / 4) = 1 := by
    have na1 : ((15 : ℤ)).natAbs = 15 := rfl
    have lg1 : Nat.log2 15 = 3 := by norm_num [Nat.log2]
    have lg2 : Nat.log2 4 = 2 := by norm_num [Nat.log2]
    norm_num [floorLog2, na1, lg1, lg2]
  have dhr9 : rne (8444249301319680 : ℚ) = 8444249301319680 := by norm_num [rne, qfloor]
  have dr9 : rnd ((15 : ℚ) / 4) = ((15 : ℚ) / 4) := by
    simp only [rnd, rndPos]
    norm_num [dfl9, dhr9]
  have dfl10 : floorLog2 (2451558 : ℚ) = 21 := by
    have na1 : ((2451558 : ℤ)).natAbs = 2451558 := rfl
    have lg1 : Nat.log2 2451558 = 21 := by norm_num [Nat.log2]
    have lg2 : Nat.log2 1 = 0 := by norm_num [Nat.log2]
    norm_num [floorLog2, na1, lg1, lg2]
  have dhr10 : rne (5264680717123584 : ℚ) = 5264680717123584 := by norm_num [rne, qfloor]
  have dr10 : rnd (2451558 : ℚ) = (2451558 : ℚ) := by
    simp only [rnd, rndPos]
    norm_num [dfl10, dhr10]
  have dfl11 : floorLog2 (2453082 : ℚ) = 21 := by
    have na1 : ((2453082 : ℤ)).natAbs = 2453082 := rfl
    have lg1 : Nat.log2 2453082 = 21 := by norm_num [Nat.log2]
    have lg2 : Nat.log2 1 = 0 := by norm_num [Nat.log2]
    norm_num [floorLog2, na1, lg1, lg2]
  have dhr11 : rne (5267953482203136 : ℚ) = 5267953482203136 := by norm_num [rne, qfloor]
  have dr11 : rnd (2453082 : ℚ) = (2453082 : ℚ) := by
    simp only [rnd, rndPos]
    norm_num [dfl11, dhr11]
  have dfl12 : floorLog2 ((1221 : ℚ) / 10) = 6 := by
    have na1 : ((1221 : ℤ)).natAbs = 1221 := rfl
    have lg1 : Nat.log2 1221 = 10 := by norm_num [Nat.log2]
    have lg2 : Nat.log2 10 = 3 := by norm_num [Nat.log2]
    norm_num [floorLog2, na1, lg1, lg2]
  have dhr12 : rne ((42960118320463872 : ℚ) / 5) = 8592023664092774 := by norm_num [rne, qfloor]
  have dr12 : rnd ((1221 : ℚ) / 10) = ((4296011832046387 : ℚ) / 35184372088832) := by
    simp only [rnd, rndPos]
    norm_num [dfl12, dhr12]
  have dfl13 : floorLog2 ((86305853840584133837 : ℚ) / 35184372088832) = 21 := by
    have na1 : ((86305853840584133837 : ℤ)).natAbs = 86305853840584133837 := rfl
    have lg1 : Nat.log2 86305853840584133837 = 66 := by norm_num [Nat.log2]
    have lg2 : Nat.log2 35184372088832 = 45 := by norm_num [Nat.log2]
    norm_num [floorLog2, na1, lg1, lg2]
  have dhr13 : rne ((86305853840584133837 : ℚ) / 16384) = 5267691274449715 := by norm_num [rne, qfloor]
  have dr13 : rnd ((86305853840584133837 : ℚ) / 35184372088832) = ((5267691274449715 : ℚ) / 2147483648) := by
    simp only [rnd, rndPos]
    norm_num [dfl13, dhr13]
  have dfl14 : floorLog2 ((1461 : ℚ) / 4) = 8 := by
    have na1 : ((1461 : ℤ)).natAbs = 1461 := rfl
    have lg1 : Nat.log2 1461 = 10 := by norm_num [Nat.log2]
    have lg2 : Nat.log2 4 = 2 := by norm_num [Nat.log2]
    norm_num [floorLog2, na1, lg1, lg2]
  have dhr14 : rne (6425545952722944 : ℚ) = 6425545952722944 := by norm_num [rne, qfloor]
  have dr14 : rnd ((1461 : ℚ) / 4) = ((1461 : ℚ) / 4) := by
    simp only [rnd, rndPos]
    norm_num [dfl14, dhr14]
  have dfl15 : floorLog2 ((5267691274449715 : ℚ) / 784368402432) = 12 := by
    have na1 : ((5267691274449715 : ℤ)).natAbs = 5267691274449715 := rfl
    have lg1 : Nat.log2 5267691274449715 = 52 := by norm_num [Nat.log2]
    have lg2 : Nat.log2 784368402432 = 39 := by norm_num [Nat.log2]
    norm_num [floorLog2, na1, lg1, lg2]
  have dhr15 : rne ((10788231730073016320 : ℚ) / 1461) = 7384142183485980 := by norm_num [rne, qfloor]
  have dr15 : rnd ((5267691274449715 : ℚ) / 784368402432) = ((1846035545871495 : ℚ) / 274877906944) := by
    simp only [rnd, rndPos]
    norm_num [dfl15, dhr15]
  have dfl16 : floorLog2 ((9810615 : ℚ) / 4) = 21 := by
    have na1 : ((9810615 : ℤ)).natAbs = 9810615 := rfl
    have lg1 : Nat.log2 9810615 = 23 := by norm_num [Nat.log2]
    have lg2 : Nat.log2 4 = 2 := by norm_num [Nat.log2]
    norm_num [floorLog2, na1, lg1, lg2]
  have dhr16 : rne (5267033822330880 : ℚ) = 5267033822330880 := by norm_num [rne, qfloor]
  have dr16 : rnd ((9810615 : ℚ) / 4) = ((9810615 : ℚ) / 4) := by
    simp only [rnd, rndPos]
    norm_num [dfl16, dhr16]
  have dfl17 : floorLog2 (429 : ℚ) = 8 := by
    have na1 : ((429 : ℤ)).natAbs = 429 := rfl
    have lg1 : Nat.log2 429 = 8 := by norm_num [Nat.log2]
    have lg2 : Nat.log2 1 = 0 := by norm_num [Nat.log2]
    norm_num [floorLog2, na1, lg1, lg2]
  have dhr17 : rne (7547047813054464 : ℚ) = 7547047813054464 := by norm_num [rne, qfloor]
  have dr17 : rnd (429 : ℚ) = (429 : ℚ) := by
    simp only [rnd, rndPos]
    norm_num [dfl17, dhr17]
  have dfl18 : floorLog2 ((306001 : ℚ) / 10000) = 4 := by
    have na1 : ((306001 : ℤ)).natAbs = 306001 := rfl
    have lg1 : Nat.log2 306001 = 18 := by norm_num [Nat.log2]
    have lg2 : Nat.log2 10000 = 13 := by norm_num [Nat.log2]
    norm_num [floorLog2, na1, lg1, lg2]
  have dhr18 : rne ((5383226521777340416 : ℚ) / 625) = 8613162434843745 := by norm_num [rne, qfloor]
  have dr18 : rnd ((306001 : ℚ) / 10000) = ((8613162434843745 : ℚ) / 281474976710656) := by
    simp only [rnd, rndPos]
    norm_num [dfl18, dhr18]
  have dfl19 : floorLog2 ((40250921669623808 : ℚ) / 2871054144947915) = 3 := by
    have na1 : ((40250921669623808 : ℤ)).natAbs = 40250921669623808 := rfl
    have lg1 : Nat.log2 40250921669623808 = 55 := by norm_num [Nat.log2]
    have lg2 : Nat.log2 2871054144947915 = 51 := by norm_num [Nat.log2]
    norm_num [floorLog2, na1, lg1, lg2]
  have dhr19 : rne ((22659254479079600551753569796096 : ℚ) / 2871054144947915) = 7892311790410582 := by norm_num [rne, qfloor]
  have dr19 : rnd ((40250921669623808 : ℚ) / 2871054144947915) = ((3946155895205291 : ℚ) / 281474976710656) := by
    simp only [rnd, rndPos]
    norm_num [dfl19, dhr19]
  have dfl20 : floorLog2 ((60292137043906215 : ℚ) / 140737488355328) = 8 := by
    have na1 : ((60292137043906215 : ℤ)).natAbs = 60292137043906215 := rfl
    have lg1 : Nat.log2 60292137043906215 = 55 := by norm_num [Nat.log2]
    have lg2 : Nat.log2 140737488355328 = 47 := by norm_num [Nat.log2]
    norm_num [floorLog2, na1, lg1, lg2]
  have dhr20 : rne ((60292137043906215 : ℚ) / 8) = 7536517130488277 := by norm_num [rne, qfloor]
  have dr20 : rnd ((60292137043906215 : ℚ) / 140737488355328) = ((7536517130488277 : ℚ) / 17592186044416) := by
    simp only [rnd, rndPos]
    norm_num [dfl20, dhr20]
  have dfl21 : floorLog2 (1 : ℚ) = 0 := by
    have na1 : ((1 : ℤ)).natAbs = 1 := rfl
    have lg1 : Nat.log2 1 = 0 := by norm_num [Nat.log2]
    have lg2 : Nat.log2 1 = 0 := by norm_num [Nat.log2]
    norm_num [floorLog2, na1, lg1, lg2]
  have dhr21 : rne (4503599627370496 : ℚ) = 4503599627370496 := by norm_num [rne, qfloor]
  have dr21 : rnd (1 : ℚ) = (1 : ℚ) := by
    simp only [rnd, rndPos]
    norm_num [dfl21, dhr21]
  have dfl22 : floorLog2 (2000 : ℚ) = 10 := by
    have na1 : ((2000 : ℤ)).natAbs = 2000 := rfl
    have lg1 : Nat.log2 2000 = 10 := by norm_num [Nat.log2]
    have lg2 : Nat.log2 1 = 0 := by norm_num [Nat.log2]
    norm_num [floorLog2, na1, lg1, lg2]
  have dhr22 : rne (8796093022208000 : ℚ) = 8796093022208000 := by norm_num [rne, qfloor]
  have dr22 : rnd (2000 : ℚ) = (2000 : ℚ) := by
    simp only [rnd, rndPos]
    norm_num [dfl22, dhr22]
  have dfl23 : floorLog2 ((268435455 : ℚ) / 268435456) = -1 := by
    have na1 : ((268435455 : ℤ)).natAbs = 268435455 := rfl
    have lg1 : Nat.log2 268435455 = 27 := by norm_num [Nat.log2]
    have lg2 : Nat.log2 268435456 = 28 := by norm_num [Nat.log2]
    norm_num [floorLog2, na1, lg1, lg2]
  have dhr23 : rne (9007199221186560 : ℚ) = 9007199221186560 := by norm_num [rne, qfloor]
  have dr23 : rnd ((268435455 : ℚ) / 268435456) = ((268435455 : ℚ) / 268435456) := by
    simp only [rnd, rndPos]
    norm_num [dfl23, dhr23]
  have dfl24 : floorLog2 ((4026531825 : ℚ) / 67108864) = 5 := by
    have na1 : ((4026531825 : ℤ)).natAbs = 4026531825 := rfl
    have lg1 : Nat.log2 4026531825 = 31 := by norm_num [Nat.log2]
    have lg2 : Nat.log2 67108864 = 26 := by norm_num [Nat.log2]
    norm_num [floorLog2, na1, lg1, lg2]
  have dhr24 : rne (8444249269862400 : ℚ) = 8444249269862400 := by norm_num [rne, qfloor]
  have dr24 : rnd ((4026531825 : ℚ) / 67108864) = ((4026531825 : ℚ) / 67108864) := by
    simp only [rnd, rndPos]
    norm_num [dfl24, dhr24]
  have dfl25 : floorLog2 ((67108849 : ℚ) / 67108864) = -1 := by
    have na1 : ((67108849 : ℤ)).natAbs = 67108849 := rfl
    have lg1 : Nat.log2 67108849 = 25 := by norm_num [Nat.log2]
    have lg2 : Nat.log2 67108864 = 26 := by norm_num [Nat.log2]
    norm_num [floorLog2, na1, lg1, lg2]
  have dhr25 : rne (9007197241475072 : ℚ) = 9007197241475072 := by norm_num [rne, qfloor]
  have dr25 : rnd ((67108849 : ℚ) / 67108864) = ((67108849 : ℚ) / 67108864) := by
    simp only [rnd, rndPos]
    norm_num [dfl25, dhr25]
  have dfl26 : floorLog2 ((1006632735 : ℚ) / 16777216) = 5 := by
    have na1 : ((1006632735 : ℤ)).natAbs = 1006632735 := rfl
    have lg1 : Nat.log2 1006632735 = 29 := by norm_num [Nat.log2]
    have lg2 : Nat.log2 16777216 = 24 := by norm_num [Nat.log2]
    norm_num [floorLog2, na1, lg1, lg2]
  have dhr26 : rne (8444247413882880 : ℚ) = 8444247413882880 := by norm_num [rne, qfloor]
  have dr26 : rnd ((1006632735 : ℚ) / 16777216) = ((1006632735 : ℚ) / 16777216) := by
    simp only [rnd, rndPos]
    norm_num [dfl26, dhr26]
  simp only [julianToDateF]
  norm_num [floorF, qfloor, MIN_JULIAN_DATE, MAX_JULIAN_DATE, dr0, dr1, dr2, dr3, dr4, dr5, dr6, dr7, dr8, dr9, dr10, dr11, dr12, dr13, dr14, dr15, dr16, dr17, dr18, dr19, dr20, dr21, dr22, dr23, dr24, dr25, dr26]

/-- C5 counterexample: in double precision the round-trip is not exact.
`dateToJulian(new Date(2000-01-01T00:00:01Z))` stores the Julian date
2451544.500011574... whose time-of-day fraction, rounded to the 2⁻³¹ grid of
doubles near 2.45·10⁶, falls about 4·10⁻⁵ s short of one full second;
`julianToDate` then floors the seconds down to 0, returning
2000-01-01 00:00:00 ≠ the original date. -/
theorem claim_C5_counterexample :
    julianToDateF (dateToJulianF ⟨2000, 1, 1, 0, 0, 1⟩) =
      Except.ok ⟨2000, 1, 1, 0, 0, 0⟩ ∧
    (⟨2000, 1, 1, 0, 0, 0⟩ : CalDate) ≠ ⟨2000, 1, 1, 0, 0, 1⟩ := by
  refine ⟨?_, by decide⟩
  rw [dateToJulianF_sec1]
  exact julianToDateF_sec1

/-- C5 (amended): the Meeus algorithm of `dateToJulian`/`julianToDate`
round-trips exactly in exact (real-number) arithmetic on every valid date
from 1900 through 2100 — including midnight and leap-year corners — but the
double-precision implementation loses up to one second of time of day: the
stored time-of-day fraction lies on the 2⁻³¹ grid and the seconds are
extracted with a bare floor, so e.g. 2000-01-01 01:00:00 comes back as
2000-01-01 00:59:59 (computed here in the exact binary64 model). -/
theorem claim_C5 :
    (∀ d : CalDate, d.Valid → 1900 ≤ d.year → d.year ≤ 2100 →
      julianToDate (dateToJulian d) = Except.ok d) ∧
    julianToDateF (dateToJulianF ⟨2000, 1, 1, 1, 0, 0⟩) =
      Except.ok ⟨2000, 1, 1, 0, 59, 59⟩ := by
  refine ⟨fun d hv h1 h2 => exactCalendarRoundtrip d hv h1 h2, ?_⟩
  rw [dateToJulianF_hour1]
  exact julianToDateF_hour1

/-- Witness for C5 at the concrete date 2000-02-29 23:59:59 (a leap-day,
end-of-day corner of the exact-arithmetic round-trip). -/
theorem claim_C5_witness :
    julianToDate (dateToJulian ⟨2000, 2, 29, 23, 59, 59⟩) =
      Except.ok ⟨2000, 2, 29, 23, 59, 59⟩ :=
  claim_C5.1 ⟨2000, 2, 29, 23, 59, 59⟩ (by decide) (by decide) (by decide)

/-- C2 counterexample: `setDate` with a valid far-future JavaScript date
(year 275000) returns normally and stores a Julian day count of
102162747.5, far outside the band `(0, 2·10⁷)` — no exception is thrown.
This refutes the claim that every listed public operation either preserves
the band or throws. -/
theorem claim_C2_counterexample :
    setDate ⟨275000, 1, 1, 0, 0, 0⟩ ⟨2451545, 1, false, 0⟩ =
      .ok ⟨(102162747.5 : ℚ), 1, false, 0⟩ ∧
    ¬ ((102162747.5 : ℚ) < MAX_JULIAN_DATE) := by
  constructor
  · rw [setDate, if_pos (by decide)]
    have h1 : dateToJulian ⟨275000, 1, 1, 0, 0, 0⟩ = 102162747.5 := by
      rw [dateToJulian_eq_dayNumber]
      have h2 : dayNumberI 275000 1 1 = 102162748 := by decide
      rw [h2]
      norm_num [timeOfDay]
    rw [h1]
  · norm_num [MAX_JULIAN_DATE]

/-- C2 (amended): starting from a state whose Julian day count lies strictly
inside `(0, 2·10⁷)`, every public operation other than `setDate` —
`update`, `setTimeScale`, `pause`, `resume`, `togglePause`, `reverse`,
`forward`, `setJulianDate`, `addDays`, `jumpToJ2000` — that returns normally
leaves the day count strictly inside the band; an operation that would leave
the band throws instead of clamping or storing the value.  (`setDate` is the
exception: it validates only the `Date` argument and stores the converted
day count without a range check, see `claim_C2_counterexample`.) -/
theorem claim_C2 (op : Op) (s s' : State)
    (hlo : MIN_JULIAN_DATE < s.julianDate) (hhi : s.julianDate < MAX_JULIAN_DATE)
    (h : applyOp op s = .ok s') :
    MIN_JULIAN_DATE < s'.julianDate ∧ s'.julianDate < MAX_JULIAN_DATE := by
  cases op with
  | update δ =>
      simp only [applyOp, update] at h
      split_ifs at h with hp hneg hband hacc
      all_goals first
        | exact Except.noConfusion h
        | (injection h with h2; subst h2; first | exact ⟨hlo, hhi⟩ | exact hband)
  | setTimeScale σ =>
      simp only [applyOp, setTimeScale] at h
      split_ifs at h with hb
      all_goals first
        | exact Except.noConfusion h
        | (injection h with h2; subst h2; exact ⟨hlo, hhi⟩)
  | pause => injection h with h2; subst h2; exact ⟨hlo, hhi⟩
  | resume => injection h with h2; subst h2; exact ⟨hlo, hhi⟩
  | togglePause => injection h with h2; subst h2; exact ⟨hlo, hhi⟩
  | reverse => injection h with h2; subst h2; exact ⟨hlo, hhi⟩
  | forward => injection h with h2; subst h2; exact ⟨hlo, hhi⟩
  | setJulianDate jd =>
      simp only [applyOp, setJulianDate] at h
      split_ifs at h with hband
      all_goals first
        | exact Except.noConfusion h
        | (injection h with h2; subst h2; exact hband)
  | addDays days =>
      simp only [applyOp, addDays] at h
      split_ifs at h with hband
      all_goals first
        | exact Except.noConfusion h
        | (injection h with h2; subst h2; exact hband)
  | jumpToJ2000 =>
      injection h with h2; subst h2
      constructor <;> norm_num [jumpToJ2000, J2000_JD, MIN_JULIAN_DATE, MAX_JULIAN_DATE]

/-- Witness for the amended C2: `addDays 1` from J2000 stays in the band. -/
theorem claim_C2_witness :
    MIN_JULIAN_DATE < (2451546 : ℚ) ∧ (2451546 : ℚ) < MAX_JULIAN_DATE :=
  claim_C2 (.addDays 1) ⟨2451545, 1, false, 0⟩ ⟨2451546, 1, false, 0⟩
    (by norm_num [MIN_JULIAN_DATE]) (by norm_num [MAX_JULIAN_DATE])
    (by rw [applyOp, addDays]
        norm_num [MIN_JULIAN_DATE, MAX_JULIAN_DATE])

/-- C10: when the controller is not paused, `update` throws (returns an
error, with the state unmodified — the assertion precedes every mutation in
the source) for every negative `deltaSeconds`; when paused, `update` returns
the state unchanged for any argument whatsoever.  Non-finite arguments are
not representable in the `ℚ` embedding; over the embedded domain this is the
full content of the claim. -/
theorem claim_C10 (δ : ℚ) (s : State) :
    (s.isPaused = true → update δ s = .ok s) ∧
    (s.isPaused = false → δ < 0 →
      update δ s = .error "Delta seconds must be non-negative") := by
  constructor
  · intro hp
    rw [update, if_pos (by simp [hp])]
  · intro hp hneg
    rw [update, if_neg (by simp [hp]), if_pos hneg]

/-- Witness for C10: a paused controller ignores `update 5`; a running one
rejects `update (-1)`. -/
theorem claim_C10_witness :
    update 5 ⟨2451545, 1, true, 0⟩ = .ok ⟨2451545, 1, true, 0⟩ ∧
    update (-1) ⟨2451545, 1, false, 0⟩ =
      .error "Delta seconds must be non-negative" :=
  ⟨(claim_C10 5 ⟨2451545, 1, true, 0⟩).1 rfl,
   (claim_C10 (-1) ⟨2451545, 1, false, 0⟩).2 rfl (by norm_num)⟩

end TimeController

namespace OrbitalMechanics

theorem keplerLoop_succ (M e tol E : ℝ) (n : ℕ) :
    keplerLoop M e tol (n + 1) E =
      if ¬ (|1 - e * Real.cos E| > numberEpsilon) then
        .error "Kepler equation denominator must not be zero"
      else if |(E - e * Real.sin E - M) / (1 - e * Real.cos E)| < tol then
        .ok (E - (E - e * Real.sin E - M) / (1 - e * Real.cos E))
      else keplerLoop M e tol n (E - (E - e * Real.sin E - M) / (1 - e * Real.cos E)) := rfl

/-- With eccentricity zero the Newton step is exactly zero, so the loop
converges on its first iteration and returns the seed unchanged. -/
theorem solveKepler_zero (M : ℝ) :
    solveKeplerEquation M 0 = .ok (M * (Real.pi / 180)) := by
  have hb : (0 : ℝ) ≤ 0 ∧ (0 : ℝ) ≤ 1 - numberEpsilon := by
    constructor
    · exact le_refl 0
    · norm_num [numberEpsilon]
  rw [solveKeplerEquation, if_neg (not_not_intro hb),
    if_neg (not_not_intro (by norm_num [KEPLER_TOLERANCE] : (0 : ℝ) < KEPLER_TOLERANCE)),
    if_neg (by norm_num [MAX_KEPLER_ITERATIONS] : ¬ MAX_KEPLER_ITERATIONS = 0)]
  simp only [show ¬ ((0 : ℝ) > 0.8) by norm_num, if_false, reduceIte]
  rw [show MAX_KEPLER_ITERATIONS = 99 + 1 from rfl, keplerLoop_succ]
  have hden : ¬ ¬ (|1 - (0 : ℝ) * Real.cos (M * (Real.pi / 180))| > numberEpsilon) := by
    rw [not_not, zero_mul, sub_zero, abs_one]
    norm_num [numberEpsilon]
  rw [if_neg hden]
  have hdE : (M * (Real.pi / 180) - 0 * Real.sin (M * (Real.pi / 180)) - M * (Real.pi / 180)) /
      (1 - 0 * Real.cos (M * (Real.pi / 180))) = 0 := by
    rw [zero_mul, sub_zero, sub_self, zero_div]
  simp only [hdE, abs_zero, sub_zero]
  rw [if_pos (by norm_num [KEPLER_TOLERANCE])]

/-- C9: for every mean anomaly `M` in degrees, `solveKeplerEquation M 0`
returns exactly `M * (π / 180)`: with eccentricity zero the returned
eccentric anomaly is the mean anomaly in radians, with no approximation
error. -/
theorem claim_C9 (M : ℝ) : solveKeplerEquation M 0 = .ok (M * (Real.pi / 180)) :=
  solveKepler_zero M

/-- Sine is 1-Lipschitz: `|sin a - sin b| ≤ |a - b|`. -/
theorem abs_sin_sub_sin_le (a b : ℝ) : |Real.sin a - Real.sin b| ≤ |a - b| := by
  rw [Real.sin_sub_sin, abs_mul, abs_mul, abs_two]
  have h1 : |Real.sin ((a - b) / 2)| ≤ |(a - b) / 2| := Real.abs_sin_le_abs
  have h2 : |Real.cos ((a + b) / 2)| ≤ 1 := Real.abs_cos_le_one _
  have h3 : |(a - b) / 2| = |a - b| / 2 := by rw [abs_div, abs_two]
  nlinarith [abs_nonneg (Real.sin ((a - b) / 2)), abs_nonneg (Real.cos ((a + b) / 2)),
    abs_nonneg ((a - b) / 2), abs_nonneg (a - b)]

/-- Whenever the Newton loop returns a value, the Kepler-equation residual
of that value is below `4 · 10⁻¹⁰ < 10⁻⁹`: the final step `dE` satisfied
`|dE| < 10⁻¹⁰`, the pre-step residual is `dE · (1 - e cos E)` with
`|1 - e cos E| ≤ 1 + e ≤ 2`, and subtracting `dE` moves the residual by at
most `(1 + e) · |dE|` more (sine is 1-Lipschitz). -/
theorem keplerLoop_residual (M e : ℝ) (he0 : 0 ≤ e) (he1 : e ≤ 1) :
    ∀ (n : ℕ) (E0 E : ℝ), keplerLoop M e KEPLER_TOLERANCE n E0 = .ok E →
      |E - e * Real.sin E - M| < 1e-9 := by
  intro n
  induction n with
  | zero => intro E0 E h; exact Except.noConfusion h
  | succ n ih =>
      intro E0 E h
      rw [keplerLoop_succ] at h
      split_ifs at h with hden htol
      · set dE := (E0 - e * Real.sin E0 - M) / (1 - e * Real.cos E0) with hdE
        injection h with h2
        subst h2
        have hdennz : (1 - e * Real.cos E0) ≠ 0 := by
          intro h0
          rw [h0, abs_zero] at hden
          have : (0 : ℝ) < numberEpsilon := by norm_num [numberEpsilon]
          linarith
        have hnum : E0 - e * Real.sin E0 - M = dE * (1 - e * Real.cos E0) := by
          rw [hdE, div_mul_cancel₀ _ hdennz]
        have hdec : E0 - dE - e * Real.sin (E0 - dE) - M =
            dE * (1 - e * Real.cos E0) - dE + e * (Real.sin E0 - Real.sin (E0 - dE)) := by
          linear_combination hnum
        have hsin : |Real.sin E0 - Real.sin (E0 - dE)| ≤ |dE| := by
          have := abs_sin_sub_sin_le E0 (E0 - dE)
          simpa using this
        have hdenbound : |1 - e * Real.cos E0| ≤ 2 := by
          have h4 : |1 - e * Real.cos E0| ≤ |(1 : ℝ)| + |e * Real.cos E0| := abs_sub _ _
          have h5 : |e * Real.cos E0| = e * |Real.cos E0| := by
            rw [abs_mul, abs_of_nonneg he0]
          have h6 : |Real.cos E0| ≤ 1 := Real.abs_cos_le_one _
          have h7 : e * |Real.cos E0| ≤ e * 1 := by
            exact mul_le_mul_of_nonneg_left h6 he0
          rw [abs_one] at h4
          nlinarith
        have htol' : |dE| < 1e-10 := by
          rw [KEPLER_TOLERANCE] at htol
          exact_mod_cast htol
        have h8 : |dE * (1 - e * Real.cos E0) - dE + e * (Real.sin E0 - Real.sin (E0 - dE))| ≤
            |dE| * |1 - e * Real.cos E0| + |dE| + e * |Real.sin E0 - Real.sin (E0 - dE)| := by
          calc |dE * (1 - e * Real.cos E0) - dE + e * (Real.sin E0 - Real.sin (E0 - dE))|
              ≤ |dE * (1 - e * Real.cos E0) - dE| + |e * (Real.sin E0 - Real.sin (E0 - dE))| :=
                abs_add _ _
            _ ≤ |dE * (1 - e * Real.cos E0)| + |dE| + |e * (Real.sin E0 - Real.sin (E0 - dE))| := by
                have := abs_sub (dE * (1 - e * Real.cos E0)) dE
                linarith
            _ = |dE| * |1 - e * Real.cos E0| + |dE| + e * |Real.sin E0 - Real.sin (E0 - dE)| := by
                rw [abs_mul, abs_mul, abs_of_nonneg he0]
        rw [hdec]
        have h9 : |dE| * |1 - e * Real.cos E0| ≤ |dE| * 2 :=
          mul_le_mul_of_nonneg_left hdenbound (abs_nonneg _)
        have h10 : e * |Real.sin E0 - Real.sin (E0 - dE)| ≤ 1 * |dE| := by
          have := mul_le_mul he1 hsin (abs_nonneg _) zero_le_one
          linarith
        have hd0 : 0 ≤ |dE| := abs_nonneg _
        calc |dE * (1 - e * Real.cos E0) - dE + e * (Real.sin E0 - Real.sin (E0 - dE))|
            ≤ |dE| * |1 - e * Real.cos E0| + |dE| + e * |Real.sin E0 - Real.sin (E0 - dE)| := h8
          _ ≤ |dE| * 2 + |dE| + 1 * |dE| := by linarith
          _ < 1e-9 := by nlinarith
      · exact ih _ _ h

/-- C1: for every mean anomaly `M` (degrees) and eccentricity
`0 ≤ e < 0.999999`, if `solveKeplerEquation M e` returns a value `E`
(radians), then `|E - e·sin(E) - M_rad| < 1e-9` with
`M_rad = M · π / 180`. -/
theorem claim_C1 (M e E : ℝ) (he0 : 0 ≤ e) (he1 : e < 0.999999)
    (h : solveKeplerEquation M e = .ok E) :
    |E - e * Real.sin E - M * (Real.pi / 180)| < 1e-9 := by
  simp only [solveKeplerEquation] at h
  split_ifs at h with hb ht hm hseed
  all_goals first
    | exact Except.noConfusion h
    | exact keplerLoop_residual (M * (Real.pi / 180)) e he0 (by linarith)
        MAX_KEPLER_ITERATIONS _ E h

/-- Witness for C1 at `M = 0`, `e = 0` (the solver returns `E = 0`). -/
theorem claim_C1_witness :
    |(0 : ℝ) - 0 * Real.sin 0 - 0 * (Real.pi / 180)| < 1e-9 :=
  claim_C1 0 0 0 le_rfl (by norm_num)
    (by rw [solveKepler_zero]; norm_num)

/-- An `ok` result of the Newton loop always comes from an iteration whose
denominator passed the `Number.EPSILON` guard and whose step `dE` satisfied
`|dE| < tol`; the returned value is the post-step `E - dE`. -/
theorem keplerLoop_ok_converged (M e tol : ℝ) :
    ∀ (n : ℕ) (E0 E' : ℝ), keplerLoop M e tol n E0 = .ok E' →
      ∃ E : ℝ, |1 - e * Real.cos E| > numberEpsilon ∧
        |(E - e * Real.sin E - M) / (1 - e * Real.cos E)| < tol ∧
        E' = E - (E - e * Real.sin E - M) / (1 - e * Real.cos E) := by
  intro n
  induction n with
  | zero => intro E0 E' h; exact Except.noConfusion h
  | succ n ih =>
      intro E0 E' h
      rw [keplerLoop_succ] at h
      split_ifs at h with hden htol
      · injection h with h2
        exact ⟨E0, hden, htol, h2.symm⟩
      · exact ih _ _ h

/-- C4: `solveKeplerEquation` never returns an unconverged result.  Every
`ok` value is produced inside the 100-iteration loop by a final Newton step
whose denominator `1 - e·cos E` exceeded `Number.EPSILON` in absolute value
and whose step magnitude `|dE|` fell below the tolerance `1e-10`; in every
other situation (cap exhausted, denominator guard tripped, or a failed
precondition) the function returns an error instead of the current `E`. -/
theorem claim_C4 (M e E' : ℝ) (h : solveKeplerEquation M e = .ok E') :
    ∃ E : ℝ, |1 - e * Real.cos E| > numberEpsilon ∧
      |(E - e * Real.sin E - M * (Real.pi / 180)) / (1 - e * Real.cos E)| < KEPLER_TOLERANCE ∧
      E' = E - (E - e * Real.sin E - M * (Real.pi / 180)) / (1 - e * Real.cos E) := by
  simp only [solveKeplerEquation] at h
  split_ifs at h with hb ht hm hseed
  all_goals first
    | exact Except.noConfusion h
    | exact keplerLoop_ok_converged (M * (Real.pi / 180)) e KEPLER_TOLERANCE
        MAX_KEPLER_ITERATIONS _ E' h

/-- Witness for C4 at `M = 0`, `e = 0`. -/
theorem claim_C4_witness :
    ∃ E : ℝ, |1 - 0 * Real.cos E| > numberEpsilon ∧
      |(E - 0 * Real.sin E - 0 * (Real.pi / 180)) / (1 - 0 * Real.cos E)| < KEPLER_TOLERANCE ∧
      (0 : ℝ) = E - (E - 0 * Real.sin E - 0 * (Real.pi / 180)) / (1 - 0 * Real.cos E) :=
  claim_C4 0 0 0 (by rw [solveKepler_zero]; norm_num)

/-- C6 counterexample: `solveKeplerEquation` does not normalise its mean
anomaly.  At `M = 720` (≡ 0 mod 360) and `e = 0` it returns
`720 · π / 180 = 4π`, not the value `0` it returns for the normalised
anomaly `M = 0`; a solver that normalised into `[0, 360)` before solving
would return the same eccentric anomaly for both. -/
theorem claim_C6_counterexample :
    solveKeplerEquation 720 0 = .ok (720 * (Real.pi / 180)) ∧
    solveKeplerEquation 0 0 = .ok (0 * (Real.pi / 180)) ∧
    (720 : ℝ) * (Real.pi / 180) ≠ 0 * (Real.pi / 180) := by
  refine ⟨solveKepler_zero 720, solveKepler_zero 0, ?_⟩
  have hpi := Real.pi_pos
  intro hx
  rw [zero_mul] at hx
  have : Real.pi / 180 > 0 := by positivity
  nlinarith

/-- Bounds for the JavaScript remainder by 360. -/
theorem jsMod_360_bounds (a : ℝ) : -360 < jsMod a 360 ∧ jsMod a 360 < 360 := by
  rw [jsMod, jsTrunc]
  split_ifs with hq
  · have h1 := Int.floor_le (a / 360)
    have h2 := Int.lt_floor_add_one (a / 360)
    constructor <;> nlinarith
  · have h1 := Int.le_ceil (a / 360)
    have h2 := Int.ceil_lt_add_one (a / 360)
    constructor <;> nlinarith

/-- C6 (amended): `calculatePosition` reduces the current mean anomaly
`M₀ + n·Δdays` into `[0, 360)` (JavaScript `%` followed by the negative
fix-up) before invoking the solver — `currentMeanAnomaly` is by definition
the argument `calculatePosition` passes to `solveKeplerEquation` — but
`solveKeplerEquation` itself performs no normalisation and solves with the
mean anomaly it is given (see `claim_C6_counterexample`). -/
theorem claim_C6 (elements : OrbitalElements) (julianDate : ℝ) :
    0 ≤ currentMeanAnomaly elements julianDate ∧
      currentMeanAnomaly elements julianDate < 360 := by
  rw [currentMeanAnomaly]
  have h := jsMod_360_bounds (elements.meanAnomaly +
    meanMotionUsed elements * (julianDate - elements.epoch.getD J2000_JD))
  split_ifs with hneg
  · constructor <;> linarith [h.1, h.2]
  · push_neg at hneg
    exact ⟨hneg, h.2⟩

/-- C7 counterexample: with an explicitly supplied `meanMotion` of `0`
(JavaScript falsy), `calculatePosition`'s `elements.meanMotion || (...)`
ignores the supplied value and derives `360 / (√(a³)·365.25)` instead. -/
theorem claim_C7_counterexample :
    meanMotionUsed ⟨1, 0, 0, 0, 0, 0, some 0, none⟩ = 360 / 365.25 ∧
    (360 / 365.25 : ℝ) ≠ 0 := by
  constructor
  · rw [meanMotionUsed]
    norm_num
  · norm_num

/-- C7 (amended): `calculatePosition` uses the supplied `meanMotion` as the
mean motion whenever it is provided and nonzero, and derives
`360 / (a^1.5 · 365.25)` degrees per day when `meanMotion` is absent — or
when the supplied value is `0`, which JavaScript `||` treats as absent. -/
theorem claim_C7 (elements : OrbitalElements) :
    (∀ n : ℝ, elements.meanMotion = some n → n ≠ 0 → meanMotionUsed elements = n) ∧
    (elements.meanMotion = none ∨ elements.meanMotion = some 0 →
      meanMotionUsed elements =
        360 / (Real.sqrt (elements.semiMajorAxis * elements.semiMajorAxis *
          elements.semiMajorAxis) * 365.25)) := by
  constructor
  · intro n hn hnz
    rw [meanMotionUsed, hn]
    simp only [if_neg hnz]
  · intro hcase
    rcases hcase with hn | hn <;> rw [meanMotionUsed, hn] <;> simp

/-- Witness for the amended C7: a nonzero supplied mean motion wins; an
absent one falls back to the derived value. -/
theorem claim_C7_witness :
    meanMotionUsed ⟨1, 0, 0, 0, 0, 0, some 2, none⟩ = 2 ∧
    meanMotionUsed ⟨1, 0, 0, 0, 0, 0, none, none⟩ =
      360 / (Real.sqrt (1 * 1 * 1) * 365.25) :=
  ⟨(claim_C7 ⟨1, 0, 0, 0, 0, 0, some 2, none⟩).1 2 rfl (by norm_num),
   (claim_C7 ⟨1, 0, 0, 0, 0, 0, none, none⟩).2 (Or.inl rfl)⟩


/-- Norm preservation of the three-angle rotation used by
`calculatePosition`: the squared norm of the rotated vector equals
`xo² + yo²`. -/
theorem rotationNorm (cW sW cO sO cI sI xo yo : ℝ)
    (hW : cW ^ 2 + sW ^ 2 = 1) (hO : cO ^ 2 + sO ^ 2 = 1) (hI : cI ^ 2 + sI ^ 2 = 1) :
    ((cW * cO - sW * sO * cI) * xo + (-sW * cO - cW * sO * cI) * yo) ^ 2 +
      ((cW * sO + sW * cO * cI) * xo + (-sW * sO + cW * cO * cI) * yo) ^ 2 +
      ((sW * sI) * xo + (cW * sI) * yo) ^ 2 = xo ^ 2 + yo ^ 2 := by
  linear_combination (xo ^ 2 * (cW ^ 2 + sW ^ 2 * cI ^ 2) + yo ^ 2 * (sW ^ 2 + cW ^ 2 * cI ^ 2) +
      2 * xo * yo * cW * sW * (cI ^ 2 - 1)) * hO +
    (xo ^ 2 * sW ^ 2 + yo ^ 2 * cW ^ 2 + 2 * xo * yo * cW * sW) * hI +
    (xo ^ 2 + yo ^ 2) * hW

/-- C8: whenever `calculatePosition` returns a position, its Euclidean
distance from the origin lies within `[a(1-e), a(1+e)]`.  The rotation by
`ω`, `i`, `Ω` preserves the norm, so the distance equals the heliocentric
distance `r = a(1-e²)/(1+e·cos ν)`, which the `cos ν ∈ [-1, 1]` bounds pin
inside the perihelion/aphelion band.  In particular, for the Earth-like
elements `{a=1.0, e=0.0167, i=0, Ω=-11.26, ω=102.94, M₀=100.46,
epoch=2451545.0}` the band is `[0.9833, 1.0167]` AU. -/
theorem claim_C8 (elements : OrbitalElements) (julianDate : ℝ) (p : CartesianPosition)
    (h : calculatePosition elements julianDate = .ok p) :
    elements.semiMajorAxis * (1 - elements.eccentricity) ≤
        Real.sqrt (p.x ^ 2 + p.y ^ 2 + p.z ^ 2) ∧
      Real.sqrt (p.x ^ 2 + p.y ^ 2 + p.z ^ 2) ≤
        elements.semiMajorAxis * (1 + elements.eccentricity) := by
  simp only [calculatePosition] at h
  split_ifs at h with ha hab he hn
  rcases hE : solveKeplerEquation (currentMeanAnomaly elements julianDate)
      elements.eccentricity with e' | E
  · rw [hE] at h; exact Except.noConfusion h
  rw [hE, exceptBind_ok] at h
  rcases hNu : trueAnomalyFromEccentric E elements.eccentricity with e' | nu
  · rw [hNu] at h; exact Except.noConfusion h
  rw [hNu, exceptBind_ok] at h
  rcases hR : calculateHeliocentricDistance elements.semiMajorAxis elements.eccentricity nu
      with e' | r
  · rw [hR] at h; exact Except.noConfusion h
  rw [hR, exceptBind_ok] at h
  injection h with h2
  subst h2
  simp only [calculateHeliocentricDistance] at hR
  split_ifs at hR with hrd hrp
  injection hR with hr2
  have heps : (0 : ℝ) < numberEpsilon := by norm_num [numberEpsilon]
  have he1 : elements.eccentricity < 1 := by
    have := he.2
    linarith
  have he0 : 0 ≤ elements.eccentricity := he.1
  have hrpos : 0 < r := by rw [← hr2]; exact hrp
  have hsum : ((Real.cos (elements.argumentOfPerihelion * (Real.pi / 180)) *
        Real.cos (elements.longitudeOfAscendingNode * (Real.pi / 180)) -
        Real.sin (elements.argumentOfPerihelion * (Real.pi / 180)) *
        Real.sin (elements.longitudeOfAscendingNode * (Real.pi / 180)) *
        Real.cos (elements.inclination * (Real.pi / 180))) * (r * Real.cos nu) +
      (-Real.sin (elements.argumentOfPerihelion * (Real.pi / 180)) *
        Real.cos (elements.longitudeOfAscendingNode * (Real.pi / 180)) -
        Real.cos (elements.argumentOfPerihelion * (Real.pi / 180)) *
        Real.sin (elements.longitudeOfAscendingNode * (Real.pi / 180)) *
        Real.cos (elements.inclination * (Real.pi / 180))) * (r * Real.sin nu)) ^ 2 +
      ((Real.cos (elements.argumentOfPerihelion * (Real.pi / 180)) *
        Real.sin (elements.longitudeOfAscendingNode * (Real.pi / 180)) +
        Real.sin (elements.argumentOfPerihelion * (Real.pi / 180)) *
        Real.cos (elements.longitudeOfAscendingNode * (Real.pi / 180)) *
        Real.cos (elements.inclination * (Real.pi / 180))) * (r * Real.cos nu) +
      (-Real.sin (elements.argumentOfPerihelion * (Real.pi / 180)) *
        Real.sin (elements.longitudeOfAscendingNode * (Real.pi / 180)) +
        Real.cos (elements.argumentOfPerihelion * (Real.pi / 180)) *
        Real.cos (elements.longitudeOfAscendingNode * (Real.pi / 180)) *
        Real.cos (elements.inclination * (Real.pi / 180))) * (r * Real.sin nu)) ^ 2 +
      ((Real.sin (elements.argumentOfPerihelion * (Real.pi / 180)) *
        Real.sin (elements.inclination * (Real.pi / 180))) * (r * Real.cos nu) +
      (Real.cos (elements.argumentOfPerihelion * (Real.pi / 180)) *
        Real.sin (elements.inclination * (Real.pi / 180))) * (r * Real.sin nu)) ^ 2 =
      r ^ 2 := by
    rw [rotationNorm _ _ _ _ _ _ _ _
      (Real.cos_sq_add_sin_sq _) (Real.cos_sq_add_sin_sq _) (Real.cos_sq_add_sin_sq _)]
    linear_combination (r ^ 2) * (Real.sin_sq_add_cos_sq nu)
  have hdist : Real.sqrt
      (((Real.cos (elements.argumentOfPerihelion * (Real.pi / 180)) *
        Real.cos (elements.longitudeOfAscendingNode * (Real.pi / 180)) -
        Real.sin (elements.argumentOfPerihelion * (Real.pi / 180)) *
        Real.sin (elements.longitudeOfAscendingNode * (Real.pi / 180)) *
        Real.cos (elements.inclination * (Real.pi / 180))) * (r * Real.cos nu) +
      (-Real.sin (elements.argumentOfPerihelion * (Real.pi / 180)) *
        Real.cos (elements.longitudeOfAscendingNode * (Real.pi / 180)) -
        Real.cos (elements.argumentOfPerihelion * (Real.pi / 180)) *
        Real.sin (elements.longitudeOfAscendingNode * (Real.pi / 180)) *
        Real.cos (elements.inclination * (Real.pi / 180))) * (r * Real.sin nu)) ^ 2 +
      ((Real.cos (elements.argumentOfPerihelion * (Real.pi / 180)) *
        Real.sin (elements.longitudeOfAscendingNode * (Real.pi / 180)) +
        Real.sin (elements.argumentOfPerihelion * (Real.pi / 180)) *
        Real.cos (elements.longitudeOfAscendingNode * (Real.pi / 180)) *
        Real.cos (elements.inclination * (Real.pi / 180))) * (r * Real.cos nu) +
      (-Real.sin (elements.argumentOfPerihelion * (Real.pi / 180)) *
        Real.sin (elements.longitudeOfAscendingNode * (Real.pi / 180)) +
        Real.cos (elements.argumentOfPerihelion * (Real.pi / 180)) *
        Real.cos (elements.longitudeOfAscendingNode * (Real.pi / 180)) *
        Real.cos (elements.inclination * (Real.pi / 180))) * (r * Real.sin nu)) ^ 2 +
      ((Real.sin (elements.argumentOfPerihelion * (Real.pi / 180)) *
        Real.sin (elements.inclination * (Real.pi / 180))) * (r * Real.cos nu) +
      (Real.cos (elements.argumentOfPerihelion * (Real.pi / 180)) *
        Real.sin (elements.inclination * (Real.pi / 180))) * (r * Real.sin nu)) ^ 2) = r := by
    rw [hsum, Real.sqrt_sq hrpos.le]
  have key1 : 0 ≤ elements.semiMajorAxis * (1 - elements.eccentricity) *
      elements.eccentricity * (1 - Real.cos nu) :=
    mul_nonneg (mul_nonneg (mul_nonneg ha.le (by linarith)) he0)
      (by linarith [Real.cos_le_one nu])
  have key2 : 0 ≤ elements.semiMajorAxis * (1 + elements.eccentricity) *
      elements.eccentricity * (1 + Real.cos nu) :=
    mul_nonneg (mul_nonneg (mul_nonneg ha.le (by linarith)) he0)
      (by linarith [Real.neg_one_le_cos nu])
  refine ⟨?_, ?_⟩
  · rw [hdist, ← hr2, le_div_iff₀ hrd]
    nlinarith [key1]
  · rw [hdist, ← hr2, div_le_iff₀ hrd]
    nlinarith [key2]


/-- The true anomaly returned for `E = 0`, `e = 0` is `0`. -/
theorem trueAnomaly_zero : trueAnomalyFromEccentric 0 0 = .ok 0 := by
  rw [trueAnomalyFromEccentric,
    if_neg (not_not_intro ⟨le_refl (0 : ℝ), by norm_num [numberEpsilon]⟩),
    if_neg (not_not_intro (by norm_num : (0 : ℝ) < 1 - 0))]
  norm_num

theorem helio_one : calculateHeliocentricDistance 1 0 0 = .ok 1 := by
  rw [calculateHeliocentricDistance,
    if_neg (not_not_intro (by norm_num : (0 : ℝ) < 1)),
    if_neg (not_not_intro ⟨le_refl (0 : ℝ), by norm_num [numberEpsilon]⟩)]
  norm_num

theorem meanAnomaly_circ :
    currentMeanAnomaly ⟨1, 0, 0, 0, 0, 0, none, none⟩ 2451545 = 0 := by
  rw [currentMeanAnomaly]
  norm_num [J2000_JD, jsMod, jsTrunc]

theorem calcPositionCircular :
    calculatePosition ⟨1, 0, 0, 0, 0, 0, none, none⟩ 2451545 = .ok ⟨1, 0, 0⟩ := by
  have hmm : meanMotionUsed ⟨1, 0, 0, 0, 0, 0, none, none⟩ = 360 / 365.25 := by
    rw [meanMotionUsed]; norm_num
  have h0 : solveKeplerEquation 0 0 = .ok 0 := by rw [solveKepler_zero]; norm_num
  simp only [calculatePosition]
  rw [if_neg (not_not_intro (by norm_num : (0 : ℝ) < (1 : ℝ))),
    if_neg (not_not_intro (by norm_num [MIN_SEMI_MAJOR_AXIS, MAX_SEMI_MAJOR_AXIS] :
      MIN_SEMI_MAJOR_AXIS ≤ (1 : ℝ) ∧ (1 : ℝ) ≤ MAX_SEMI_MAJOR_AXIS)),
    if_neg (not_not_intro (⟨le_refl (0 : ℝ), by norm_num [numberEpsilon]⟩ :
      (0 : ℝ) ≤ 0 ∧ (0 : ℝ) ≤ 1 - numberEpsilon)),
    if_neg (not_not_intro (by rw [hmm]; norm_num))]
  simp only [meanAnomaly_circ, h0, exceptBind_ok, trueAnomaly_zero, helio_one]
  norm_num

/-- Witness for C8: the circular orbit `a = 1, e = 0` evaluated at its
epoch sits at distance exactly `1`, which `claim_C8` brackets in
`[1·(1-0), 1·(1+0)]`. -/
theorem claim_C8_witness :
    (1 : ℝ) * (1 - 0) ≤ Real.sqrt ((1 : ℝ) ^ 2 + 0 ^ 2 + 0 ^ 2) ∧
      Real.sqrt ((1 : ℝ) ^ 2 + 0 ^ 2 + 0 ^ 2) ≤ 1 * (1 + 0) :=
  claim_C8 ⟨1, 0, 0, 0, 0, 0, none, none⟩ 2451545 ⟨1, 0, 0⟩ calcPositionCircular

end OrbitalMechanics

namespace SolarSystemBuilder

/-- Invariants of the sequential update loop: an `ok` run preserves the
already-updated prefix, preserves the length, and updates each remaining
body against the array state current when its turn came (updated prefix,
untouched suffix). -/
theorem runUpdate_spec (jd dt ts : ℝ) :
    ∀ (todo done final : List Body),
      runUpdate jd dt ts done todo = .ok final →
      final.length = done.length + todo.length ∧
      (∀ k, k < done.length → final.get? k = done.get? k) ∧
      (∀ k b, todo.get? k = some b →
        ∃ b2, final.get? (done.length + k) = some b2 ∧
          CelestialBody.update jd dt ts (final.take (done.length + k) ++ todo.drop k) b =
            .ok b2) := by
  intro todo
  induction todo with
  | nil =>
      intro done final h
      simp only [runUpdate] at h
      injection h with h2
      subst h2
      refine ⟨by simp, fun k hk => rfl, fun k b hb => ?_⟩
      exact absurd hb (by simp)
  | cons b rest ih =>
      intro done final h
      simp only [runUpdate] at h
      rcases hup : CelestialBody.update jd dt ts (done ++ b :: rest) b with e' | b2
      · rw [hup] at h; exact Except.noConfusion h
      rw [hup] at h
      obtain ⟨hlen, hpre, hmain⟩ := ih (done ++ [b2]) final h
      have hdl : (done ++ [b2]).length = done.length + 1 := by simp
      have htake : final.take done.length = done := by
        apply List.ext_get?
        intro n
        by_cases hn : n < done.length
        · rw [List.get?_take hn, hpre n (by omega), List.get?_append hn]
        · have h1 : (final.take done.length).get? n = none := by
            rw [List.get?_eq_none]
            simp only [List.length_take]
            omega
          have h2 : done.get? n = none := by
            rw [List.get?_eq_none]
            omega
          rw [h1, h2]
      refine ⟨by simp [hlen, hdl]; omega, ?_, ?_⟩
      · intro k hk
        rw [hpre k (by omega), List.get?_append (by omega)]
      · intro k bk hbk
        match k, hbk with
        | 0, hbk =>
            injection hbk with hbk2
            subst hbk2
            refine ⟨b2, ?_, ?_⟩
            · rw [Nat.add_zero, hpre done.length (by omega),
                List.get?_append_right (le_refl done.length)]
              simp
            · rw [Nat.add_zero, List.drop_zero, htake]
              exact hup
        | k + 1, hbk =>
            obtain ⟨b3, hget, hupd⟩ := hmain k bk hbk
            refine ⟨b3, ?_, ?_⟩
            · rw [show done.length + (k + 1) = (done ++ [b2]).length + k by simp; omega]
              exact hget
            · rw [show done.length + (k + 1) = (done ++ [b2]).length + k by simp; omega]
              exact hupd


/-- C3: in an update pass of `SolarSystemBuilder.update` over an assembled
system (one whose parents precede their children in `allBodies`, as the
builder guarantees: Sun, then planets, then moons, then dwarf planets),
every body with orbital elements and a parent ends with world position equal
to its parent's world position at that same tick (the parent was updated
earlier in the same pass) plus the body's local orbital offset times
`SCALE_FACTOR * MOON_ORBIT_SCALE`, and every parentless body with orbital
elements ends at its local offset times `SCALE_FACTOR`.  The
parent-before-child assumption enters as the hypothesis `j < i` on the
parent index. -/
theorem claim_C3 (julianDate delta timeScale : ℝ) (bodies final : List Body)
    (h : update julianDate delta timeScale bodies = .ok final) :
    ∀ i b elements, bodies.get? i = some b → b.orbitalElements = some elements →
      ∃ b2 pos, final.get? i = some b2 ∧
        OrbitalMechanics.calculatePosition elements julianDate = .ok pos ∧
        (∀ j, b.parentBody = some j → j < i →
          ∃ parent2, final.get? j = some parent2 ∧
            b2.position = ⟨parent2.position.x +
                pos.x * (CelestialBody.SCALE_FACTOR * CelestialBody.MOON_ORBIT_SCALE),
              parent2.position.y +
                pos.y * (CelestialBody.SCALE_FACTOR * CelestialBody.MOON_ORBIT_SCALE),
              parent2.position.z +
                pos.z * (CelestialBody.SCALE_FACTOR * CelestialBody.MOON_ORBIT_SCALE)⟩) ∧
        (b.parentBody = none →
          b2.position = ⟨pos.x * CelestialBody.SCALE_FACTOR,
            pos.y * CelestialBody.SCALE_FACTOR, pos.z * CelestialBody.SCALE_FACTOR⟩) := by
  simp only [update] at h
  split_ifs at h with hdelta hcount
  obtain ⟨hlen, hpre, hmain⟩ := runUpdate_spec julianDate delta timeScale bodies [] final h
  simp only [List.length_nil, Nat.zero_add] at hlen hmain
  intro i b elements hib hel
  have hi : i < bodies.length := by
    by_contra hge
    rw [List.get?_eq_none.mpr (by omega)] at hib
    exact Option.noConfusion hib
  obtain ⟨b2, hb2get, hb2upd⟩ := hmain i b hib
  simp only [CelestialBody.update, hel] at hb2upd
  rw [if_neg (not_not_intro hdelta)] at hb2upd
  rcases hP : OrbitalMechanics.calculatePosition elements julianDate with e' | pos
  · rw [hP, exceptBind_error] at hb2upd
    exact Except.noConfusion hb2upd
  rw [hP, exceptBind_ok] at hb2upd
  refine ⟨b2, pos, hb2get, rfl, ?_, ?_⟩
  · intro j hj hji
    have hj2 : j < final.length := by omega
    obtain ⟨parent2, hp2⟩ : ∃ p, final.get? j = some p :=
      ⟨final.get ⟨j, hj2⟩, List.get?_eq_get hj2⟩
    have hlook : (final.take i ++ bodies.drop i).get? j = some parent2 := by
      rw [List.get?_append (by simp; omega), List.get?_take hji]
      exact hp2
    simp only [hj, hlook, exceptBind_pure] at hb2upd
    refine ⟨parent2, hp2, ?_⟩
    split_ifs at hb2upd <;>
      · injection hb2upd with h2
        subst h2
        rfl
  · intro hnone
    simp only [hnone, exceptBind_pure] at hb2upd
    split_ifs at hb2upd <;>
      · injection hb2upd with h2
        subst h2
        rfl


theorem runUpdate_nil (jd dt ts : ℝ) (done : List Body) :
    runUpdate jd dt ts done [] = .ok done := rfl

theorem runUpdate_cons (jd dt ts : ℝ) (done : List Body) (b : Body) (rest : List Body) :
    runUpdate jd dt ts done (b :: rest) =
      match CelestialBody.update jd dt ts (done ++ b :: rest) b with
      | .error e => .error e
      | .ok b2 => runUpdate jd dt ts (done ++ [b2]) rest := rfl

theorem updateSunStep :
    CelestialBody.update 2451545 0 1
      [⟨none, none, ⟨0, 0, 0⟩, 0, true, 0⟩,
       ⟨some ⟨1, 0, 0, 0, 0, 0, none, none⟩, some 0, ⟨0, 0, 0⟩, 0, false, 0⟩]
      ⟨none, none, ⟨0, 0, 0⟩, 0, true, 0⟩ = .ok ⟨none, none, ⟨0, 0, 0⟩, 0, true, 0⟩ := by
  rw [CelestialBody.update, if_neg (not_not_intro (le_refl (0 : ℝ)))]
  simp only [exceptBind_pure]
  rw [if_neg (by simp)]
  rfl

theorem updatePlanetStep :
    CelestialBody.update 2451545 0 1
      [⟨none, none, ⟨0, 0, 0⟩, 0, true, 0⟩,
       ⟨some ⟨1, 0, 0, 0, 0, 0, none, none⟩, some 0, ⟨0, 0, 0⟩, 0, false, 0⟩]
      ⟨some ⟨1, 0, 0, 0, 0, 0, none, none⟩, some 0, ⟨0, 0, 0⟩, 0, false, 0⟩ =
      .ok ⟨some ⟨1, 0, 0, 0, 0, 0, none, none⟩, some 0, ⟨5000, 0, 0⟩, 0, false, 0⟩ := by
  rw [CelestialBody.update, if_neg (not_not_intro (le_refl (0 : ℝ)))]
  simp only [OrbitalMechanics.calcPositionCircular, exceptBind_ok, exceptBind_pure,
    List.get?, CelestialBody.SCALE_FACTOR, CelestialBody.MOON_ORBIT_SCALE]
  rw [if_neg (by simp)]
  norm_num
  rfl

theorem updateTwoBody :
    update 2451545 0 1
      [⟨none, none, ⟨0, 0, 0⟩, 0, true, 0⟩,
       ⟨some ⟨1, 0, 0, 0, 0, 0, none, none⟩, some 0, ⟨0, 0, 0⟩, 0, false, 0⟩] =
      .ok [⟨none, none, ⟨0, 0, 0⟩, 0, true, 0⟩,
        ⟨some ⟨1, 0, 0, 0, 0, 0, none, none⟩, some 0, ⟨5000, 0, 0⟩, 0, false, 0⟩] := by
  rw [update, if_neg (not_not_intro (le_refl (0 : ℝ))),
    if_neg (not_not_intro (by norm_num [MAX_BODIES]))]
  rw [runUpdate_cons]
  simp only [List.nil_append, updateSunStep]
  rw [runUpdate_cons]
  simp only [List.cons_append, List.nil_append, updatePlanetStep]
  rw [runUpdate_nil]

/-- Witness for C3: a two-body system (a Sun-like root without elements and
a circular-orbit child whose parent is body 0) updated at the child's epoch
places the child at the parent's position plus `(1,0,0) * 5000`. -/
theorem claim_C3_witness :
    ∃ b2 pos,
      ([⟨none, none, ⟨0, 0, 0⟩, 0, true, 0⟩,
        ⟨some ⟨1, 0, 0, 0, 0, 0, none, none⟩, some 0, ⟨5000, 0, 0⟩, 0, false, 0⟩] :
          List Body).get? 1 = some b2 ∧
      OrbitalMechanics.calculatePosition ⟨1, 0, 0, 0, 0, 0, none, none⟩ 2451545 = .ok pos ∧
      (∀ j, (⟨some ⟨1, 0, 0, 0, 0, 0, none, none⟩, some 0, ⟨0, 0, 0⟩, 0, false, 0⟩ :
          Body).parentBody = some j → j < 1 →
        ∃ parent2,
          ([⟨none, none, ⟨0, 0, 0⟩, 0, true, 0⟩,
            ⟨some ⟨1, 0, 0, 0, 0, 0, none, none⟩, some 0, ⟨5000, 0, 0⟩, 0, false, 0⟩] :
              List Body).get? j = some parent2 ∧
          b2.position = ⟨parent2.position.x +
              pos.x * (CelestialBody.SCALE_FACTOR * CelestialBody.MOON_ORBIT_SCALE),
            parent2.position.y +
              pos.y * (CelestialBody.SCALE_FACTOR * CelestialBody.MOON_ORBIT_SCALE),
            parent2.position.z +
              pos.z * (CelestialBody.SCALE_FACTOR * CelestialBody.MOON_ORBIT_SCALE)⟩) ∧
      ((⟨some ⟨1, 0, 0, 0, 0, 0, none, none⟩, some 0, ⟨0, 0, 0⟩, 0, false, 0⟩ :
          Body).parentBody = none →
        b2.position = ⟨pos.x * CelestialBody.SCALE_FACTOR, pos.y * CelestialBody.SCALE_FACTOR,
          pos.z * CelestialBody.SCALE_FACTOR⟩) :=
  claim_C3 2451545 0 1
    [⟨none, none, ⟨0, 0, 0⟩, 0, true, 0⟩,
     ⟨some ⟨1, 0, 0, 0, 0, 0, none, none⟩, some 0, ⟨0, 0, 0⟩, 0, false, 0⟩]
    [⟨none, none, ⟨0, 0, 0⟩, 0, true, 0⟩,
     ⟨some ⟨1, 0, 0, 0, 0, 0, none, none⟩, some 0, ⟨5000, 0, 0⟩, 0, false, 0⟩]
    updateTwoBody 1
    ⟨some ⟨1, 0, 0, 0, 0, 0, none, none⟩, some 0, ⟨0, 0, 0⟩, 0, false, 0⟩
    ⟨1, 0, 0, 0, 0, 0, none, none⟩ rfl rfl

end SolarSystemBuilder

end Cosmos

